import Mathlib

/-!
# Verification of the health-analysis orchestration flow of `studio`

Shallow embedding of `src/ai/flows/generate-health-analysis.ts`: the input and
output schemas, the Ollama prompt renderer `fillPromptTemplate`, the response
envelope extraction, the zod output validation, and the orchestration body of
`generateHealthAnalysisFlow` (backend calls are supplied by oracles; the list
of backend invocations is returned alongside the result so that temporal
claims about invocation counts can be stated).

JavaScript semantics that matter here are modelled explicitly: `||` and `if`
truthiness on strings (the empty string is falsy), `typeof null === 'object'`,
and `String.prototype.replace` scanning left to right without rescanning the
replacement text.
-/

set_option maxRecDepth 40000

namespace Studio

/-! ## String rewriting engine

`fillPromptTemplate` in the source uses `String.prototype.replace` with a
global literal pattern and with the handlebars-style conditional-block regex
`/\x7b\x7b#if userRegionHint\x7d\x7d([\s\S]*?)\x7b\x7b\/if\x7d\x7d/g`.  We
model these as character-list scanners with explicit fuel so that they reduce
in the kernel.  A replacement is never rescanned, matching JS semantics. -/

/-- Global replace of a literal pattern, scanning left to right. -/
def replaceAllFuel (pat repl : List Char) : Nat → List Char → List Char
  | 0, s => s
  | _ + 1, [] => []
  | fuel + 1, c :: rest =>
    if pat.isPrefixOf (c :: rest) then
      repl ++ replaceAllFuel pat repl fuel (List.drop (pat.length - 1) rest)
    else
      c :: replaceAllFuel pat repl fuel rest

/-- Replace only the first occurrence of a literal pattern (JS
`String.prototype.replace` with a string pattern). -/
def replaceFirstFuel (pat repl : List Char) : Nat → List Char → List Char
  | 0, s => s
  | _ + 1, [] => []
  | fuel + 1, c :: rest =>
    if pat.isPrefixOf (c :: rest) then
      repl ++ List.drop (pat.length - 1) rest
    else
      c :: replaceFirstFuel pat repl fuel rest

/-- Split at the first occurrence of a literal pattern: returns the part
before the occurrence and the part after it.  Used to model the lazy
`([\s\S]*?)` group of the conditional-block regex. -/
def splitAtSubFuel (pat : List Char) : Nat → List Char → Option (List Char × List Char)
  | 0, _ => none
  | _ + 1, [] => none
  | fuel + 1, c :: rest =>
    if pat.isPrefixOf (c :: rest) then
      some ([], List.drop (pat.length - 1) rest)
    else
      match splitAtSubFuel pat fuel rest with
      | some (before, after) => some (c :: before, after)
      | none => none

/-- Global replace of every `opener …lazy… closer` block, transforming the
enclosed text with `f`.  When an opener has no later closer the regex cannot
match there (nor anywhere later), so the remainder is left unchanged. -/
def processIfFuel (opener closer : List Char) (f : List Char → List Char) :
    Nat → List Char → List Char
  | 0, s => s
  | _ + 1, [] => []
  | fuel + 1, c :: rest =>
    if opener.isPrefixOf (c :: rest) then
      match splitAtSubFuel closer rest.length (List.drop (opener.length - 1) rest) with
      | some (inner, after) => f inner ++ processIfFuel opener closer f fuel after
      | none => c :: rest
    else
      c :: processIfFuel opener closer f fuel rest

def replaceAllS (pat repl s : String) : String :=
  if pat.data.isEmpty then s else ⟨replaceAllFuel pat.data repl.data s.data.length s.data⟩

def replaceFirstS (pat repl s : String) : String :=
  if pat.data.isEmpty then s else ⟨replaceFirstFuel pat.data repl.data s.data.length s.data⟩

def processIfS (opener closer : String) (f : String → String) (s : String) : String :=
  ⟨processIfFuel opener.data closer.data (fun l => (f ⟨l⟩).data) s.data.length s.data⟩

/-- `true` iff no occurrence of `pat` begins at any nonempty suffix position of
`a`, where the text continues with `c` after `a` (so occurrences spanning from
`a` into `c` are also ruled out). -/
def noPrefixAnySuffix (pat : List Char) : List Char → List Char → Bool
  | [], _ => true
  | c :: rest, tail => !(pat.isPrefixOf ((c :: rest) ++ tail)) && noPrefixAnySuffix pat rest tail

/-- `true` iff no nonempty suffix of `a` is prefix-comparable with `pat`: no
occurrence of `pat` starts inside `a`, regardless of what text follows `a`. -/
def noEdgeOcc (pat : List Char) : List Char → Bool
  | [] => true
  | c :: rest => !(pat.isPrefixOf (c :: rest)) && !((c :: rest).isPrefixOf pat) && noEdgeOcc pat rest

/-- `true` iff `a` contains no occurrence of the character `p`. -/
def headFree (p : Char) (a : List Char) : Bool :=
  a.all (fun ch => ch != p)

/-- Substring occurrence test (used to state "contains an error marker"). -/
def occursIn (pat : List Char) : List Char → Bool
  | [] => pat.isEmpty
  | c :: rest => pat.isPrefixOf (c :: rest) || occursIn pat rest

def strContains (hay needle : String) : Bool :=
  occursIn needle.data hay.data

/-! ### Bridging lemmas between the Bool scanners and `List.IsPrefix` -/

theorem prefixOf_eq_false {l₁ l₂ : List Char} (h : ¬ l₁ <+: l₂) :
    l₁.isPrefixOf l₂ = false := by
  rw [Bool.eq_false_iff]
  intro ht
  exact h (List.isPrefixOf_iff_prefix.mp ht)

theorem not_prefix_of_eq_false {l₁ l₂ : List Char} (h : l₁.isPrefixOf l₂ = false) :
    ¬ l₁ <+: l₂ := by
  intro hp
  rw [← List.isPrefixOf_iff_prefix] at hp
  rw [h] at hp
  cases hp

theorem isPrefixOf_append_self (l₁ l₂ : List Char) : l₁.isPrefixOf (l₁ ++ l₂) = true :=
  List.isPrefixOf_iff_prefix.mpr ⟨l₂, rfl⟩

theorem noEdgeOcc_cons {pat : List Char} {c : Char} {rest : List Char}
    (h : noEdgeOcc pat (c :: rest) = true) :
    ¬ pat <+: (c :: rest) ∧ ¬ (c :: rest) <+: pat ∧ noEdgeOcc pat rest = true := by
  simp only [noEdgeOcc, Bool.and_eq_true, Bool.not_eq_true'] at h
  exact ⟨not_prefix_of_eq_false h.1.1, not_prefix_of_eq_false h.1.2, h.2⟩

/-- If no nonempty suffix of `a` is prefix-comparable with `pat`, then no
occurrence of `pat` starts inside `a` whatever text `c` follows. -/
theorem nps_of_noEdgeOcc {pat : List Char} :
    ∀ {a : List Char}, noEdgeOcc pat a = true → ∀ c, noPrefixAnySuffix pat a c = true
  | [], _, _ => rfl
  | x :: rest, h, c => by
    obtain ⟨h1, h2, h3⟩ := noEdgeOcc_cons h
    have hmain : pat.isPrefixOf ((x :: rest) ++ c) = false := by
      apply prefixOf_eq_false
      intro hpre
      rcases List.prefix_or_prefix_of_prefix hpre (List.prefix_append (x :: rest) c) with hc | hc
      · exact h1 hc
      · exact h2 hc
    simp only [noPrefixAnySuffix, Bool.and_eq_true, Bool.not_eq_true']
    exact ⟨by simpa using hmain, nps_of_noEdgeOcc h3 c⟩

/-- `noEdgeOcc` facts combine across concatenation. -/
theorem noEdgeOcc_append {pat : List Char} :
    ∀ {a b : List Char}, noEdgeOcc pat a = true → noEdgeOcc pat b = true →
      noEdgeOcc pat (a ++ b) = true
  | [], b, _, hb => by simpa using hb
  | x :: rest, b, ha, hb => by
    obtain ⟨h1, h2, h3⟩ := noEdgeOcc_cons ha
    have g1 : pat.isPrefixOf (x :: (rest ++ b)) = false := by
      apply prefixOf_eq_false
      intro hpre
      rw [← List.cons_append] at hpre
      rcases List.prefix_or_prefix_of_prefix hpre (List.prefix_append (x :: rest) b) with hc | hc
      · exact h1 hc
      · exact h2 hc
    have g2 : (x :: (rest ++ b)).isPrefixOf pat = false := by
      apply prefixOf_eq_false
      intro hpre
      rw [← List.cons_append] at hpre
      exact h2 ((List.prefix_append (x :: rest) b).trans hpre)
    have grest : noEdgeOcc pat (rest ++ b) = true := noEdgeOcc_append h3 hb
    have hgoal : noEdgeOcc pat (x :: (rest ++ b)) = true := by
      simp only [noEdgeOcc, Bool.and_eq_true, Bool.not_eq_true']
      exact ⟨⟨g1, g2⟩, grest⟩
    simpa using hgoal

/-- A pattern starting with character `p` cannot start an occurrence inside a
list that never contains `p`. -/
theorem noEdgeOcc_of_headFree {p : Char} {pt : List Char} :
    ∀ {a : List Char}, headFree p a = true → noEdgeOcc (p :: pt) a = true
  | [], _ => rfl
  | x :: rest, h => by
    have hh : ¬ (x = p) ∧ headFree p rest = true := by
      simpa [headFree] using h
    have g1 : (p :: pt).isPrefixOf (x :: rest) = false := by
      apply prefixOf_eq_false
      rintro ⟨t, ht⟩
      rw [List.cons_append] at ht
      injection ht with hhead _
      exact hh.1 hhead.symm
    have g2 : (x :: rest).isPrefixOf (p :: pt) = false := by
      apply prefixOf_eq_false
      rintro ⟨t, ht⟩
      rw [List.cons_append] at ht
      injection ht with hhead _
      exact hh.1 hhead
    have grest : noEdgeOcc (p :: pt) rest = true := noEdgeOcc_of_headFree hh.2
    simp only [noEdgeOcc, Bool.and_eq_true, Bool.not_eq_true']
    exact ⟨⟨g1, g2⟩, grest⟩

theorem headFree_append {p : Char} {a b : List Char}
    (ha : headFree p a = true) (hb : headFree p b = true) :
    headFree p (a ++ b) = true := by
  simp only [headFree, List.all_append, Bool.and_eq_true]
  exact ⟨ha, hb⟩

/-! ### Unfolding helpers for the fueled scanners -/

theorem replaceAllFuel_cons_neg {pat repl : List Char} {x : Char} {l : List Char}
    (h : pat.isPrefixOf (x :: l) = false) (m : Nat) :
    replaceAllFuel pat repl (m + 1) (x :: l) = x :: replaceAllFuel pat repl m l := by
  simp [replaceAllFuel, h]

theorem replaceAllFuel_cons_pos {pat repl : List Char} {x : Char} {l : List Char}
    (h : pat.isPrefixOf (x :: l) = true) (m : Nat) :
    replaceAllFuel pat repl (m + 1) (x :: l) =
      repl ++ replaceAllFuel pat repl m (List.drop (pat.length - 1) l) := by
  simp [replaceAllFuel, h]

theorem replaceFirstFuel_cons_neg {pat repl : List Char} {x : Char} {l : List Char}
    (h : pat.isPrefixOf (x :: l) = false) (m : Nat) :
    replaceFirstFuel pat repl (m + 1) (x :: l) = x :: replaceFirstFuel pat repl m l := by
  simp [replaceFirstFuel, h]

theorem splitAtSubFuel_cons_neg {pat : List Char} {x : Char} {l : List Char}
    (h : pat.isPrefixOf (x :: l) = false) (m : Nat) :
    splitAtSubFuel pat (m + 1) (x :: l) =
      (match splitAtSubFuel pat m l with
       | some (before, after) => some (x :: before, after)
       | none => none) := by
  simp [splitAtSubFuel, h]

theorem splitAtSubFuel_cons_pos {pat : List Char} {x : Char} {l : List Char}
    (h : pat.isPrefixOf (x :: l) = true) (m : Nat) :
    splitAtSubFuel pat (m + 1) (x :: l) = some ([], List.drop (pat.length - 1) l) := by
  simp [splitAtSubFuel, h]

theorem processIfFuel_cons_neg {opener closer : List Char} {f : List Char → List Char}
    {x : Char} {l : List Char} (h : opener.isPrefixOf (x :: l) = false) (m : Nat) :
    processIfFuel opener closer f (m + 1) (x :: l) =
      x :: processIfFuel opener closer f m l := by
  simp [processIfFuel, h]

/-! ### Scanner behaviour through occurrence-free zones -/

theorem replaceAllFuel_skip {pat repl : List Char} :
    ∀ {a : List Char} {c : List Char}, noPrefixAnySuffix pat a c = true → ∀ n,
      replaceAllFuel pat repl (a.length + n) (a ++ c) = a ++ replaceAllFuel pat repl n c
  | [], c, _, n => by simp
  | x :: rest, c, h, n => by
    have hh : pat.isPrefixOf (x :: (rest ++ c)) = false ∧ noPrefixAnySuffix pat rest c = true := by
      simpa [noPrefixAnySuffix] using h
    have e1 : (x :: rest).length + n = rest.length + n + 1 := by
      simp [List.length_cons]
      omega
    rw [e1, List.cons_append, replaceAllFuel_cons_neg hh.1 (rest.length + n),
      replaceAllFuel_skip hh.2 n, List.cons_append]

theorem replaceAllFuel_match {p : Char} {pt repl : List Char} (b : List Char) (n : Nat) :
    replaceAllFuel (p :: pt) repl ((p :: pt).length + n) ((p :: pt) ++ b) =
      repl ++ replaceAllFuel (p :: pt) repl (pt.length + n) b := by
  have e1 : (p :: pt).length + n = pt.length + n + 1 := by
    simp [List.length_cons]
    omega
  rw [e1, List.cons_append,
    replaceAllFuel_cons_pos (by rw [← List.cons_append]; exact isPrefixOf_append_self _ b) _]
  simp [List.drop_left']

/-- A fully occurrence-free string is left unchanged (any fuel). -/
theorem replaceAllFuel_stop {pat repl : List Char} :
    ∀ {s : List Char}, noPrefixAnySuffix pat s [] = true → ∀ n,
      replaceAllFuel pat repl n s = s
  | [], _, n => by cases n <;> rfl
  | x :: rest, h, n => by
    have hh : pat.isPrefixOf (x :: rest) = false ∧ noPrefixAnySuffix pat rest [] = true := by
      simpa [noPrefixAnySuffix] using h
    cases n with
    | zero => rfl
    | succ m => rw [replaceAllFuel_cons_neg hh.1 m, replaceAllFuel_stop hh.2 m]

theorem replaceFirstFuel_stop {pat repl : List Char} :
    ∀ {s : List Char}, noPrefixAnySuffix pat s [] = true → ∀ n,
      replaceFirstFuel pat repl n s = s
  | [], _, n => by cases n <;> rfl
  | x :: rest, h, n => by
    have hh : pat.isPrefixOf (x :: rest) = false ∧ noPrefixAnySuffix pat rest [] = true := by
      simpa [noPrefixAnySuffix] using h
    cases n with
    | zero => rfl
    | succ m => rw [replaceFirstFuel_cons_neg hh.1 m, replaceFirstFuel_stop hh.2 m]

theorem splitAtSubFuel_skip {pat : List Char} :
    ∀ {a c : List Char}, noPrefixAnySuffix pat a c = true → ∀ n,
      splitAtSubFuel pat (a.length + n) (a ++ c) =
        (match splitAtSubFuel pat n c with
         | some (before, after) => some (a ++ before, after)
         | none => none)
  | [], c, _, n => by
    simp only [List.length_nil, Nat.zero_add, List.nil_append]
    cases hs : splitAtSubFuel pat n c with
    | none => rfl
    | some y => cases y; simp
  | x :: rest, c, h, n => by
    have hh : pat.isPrefixOf (x :: (rest ++ c)) = false ∧ noPrefixAnySuffix pat rest c = true := by
      simpa [noPrefixAnySuffix] using h
    have e1 : (x :: rest).length + n = rest.length + n + 1 := by
      simp [List.length_cons]
      omega
    rw [e1, List.cons_append, splitAtSubFuel_cons_neg hh.1 (rest.length + n),
      splitAtSubFuel_skip hh.2 n]
    cases hs : splitAtSubFuel pat n c with
    | none => rfl
    | some y => cases y; simp

theorem splitAtSubFuel_match {p : Char} {pt : List Char} (b : List Char) (n : Nat) :
    splitAtSubFuel (p :: pt) ((p :: pt).length + n) ((p :: pt) ++ b) = some ([], b) := by
  have e1 : (p :: pt).length + n = pt.length + n + 1 := by
    simp [List.length_cons]
    omega
  rw [e1, List.cons_append,
    splitAtSubFuel_cons_pos (by rw [← List.cons_append]; exact isPrefixOf_append_self _ b) _]
  simp [List.drop_left']

theorem processIfFuel_skip {opener closer : List Char} {f : List Char → List Char} :
    ∀ {a c : List Char}, noPrefixAnySuffix opener a c = true → ∀ n,
      processIfFuel opener closer f (a.length + n) (a ++ c) =
        a ++ processIfFuel opener closer f n c
  | [], c, _, n => by simp
  | x :: rest, c, h, n => by
    have hh : opener.isPrefixOf (x :: (rest ++ c)) = false ∧
        noPrefixAnySuffix opener rest c = true := by
      simpa [noPrefixAnySuffix] using h
    have e1 : (x :: rest).length + n = rest.length + n + 1 := by
      simp [List.length_cons]
      omega
    rw [e1, List.cons_append, processIfFuel_cons_neg hh.1 (rest.length + n),
      processIfFuel_skip hh.2 n, List.cons_append]

theorem processIfFuel_stop {opener closer : List Char} {f : List Char → List Char} :
    ∀ {s : List Char}, noPrefixAnySuffix opener s [] = true → ∀ n,
      processIfFuel opener closer f n s = s
  | [], _, n => by cases n <;> rfl
  | x :: rest, h, n => by
    have hh : opener.isPrefixOf (x :: rest) = false ∧
        noPrefixAnySuffix opener rest [] = true := by
      simpa [noPrefixAnySuffix] using h
    cases n with
    | zero => rfl
    | succ m => rw [processIfFuel_cons_neg hh.1 m, processIfFuel_stop hh.2 m]

theorem occursIn_append_self : ∀ (pat t : List Char), occursIn pat (pat ++ t) = true
  | [], t => by cases t <;> simp [occursIn, List.isPrefixOf]
  | p :: pt, t => by
    simp only [List.cons_append, occursIn, Bool.or_eq_true]
    left
    exact List.isPrefixOf_iff_prefix.mpr ⟨t, by simp⟩

/-! ## The prompt template of the source (`basePromptTemplate`)

The template literal from the source, split at its two placeholders and its
conditional region-hint block (and the long final part into pieces, purely so
that kernel-level scans of it stay within stack bounds); `basePromptTemplate`
is their concatenation, character-for-character the source string. -/

def promptPre : String :=
  "You are an expert AI assistant specializing in providing comprehensive, detailed, culturally-aware, and unbiased health analysis of food products. Your goal is to empower users, especially in INDIA, to make informed choices. Your language must be PLAIN, DIRECT, and ACTIONABLE. Avoid jargon.\n\nProduct Information: "

def promptMid : String :=
  "\n"

def braceChar : Char := '\x7b'

def productInfoPH : String :=
  "\x7b\x7b\x7bproductInfo\x7d\x7d\x7d"

def userRegionHintPH : String :=
  "\x7b\x7b\x7buserRegionHint\x7d\x7d\x7d"

def promptIfOpen : String :=
  "\x7b\x7b#if userRegionHint\x7d\x7d"

def promptIfClose : String :=
  "\x7b\x7b/if\x7d\x7d"

def userRegionLabel : String :=
  "User's Region Hint: "

def promptIfInner : String :=
  userRegionLabel ++ userRegionHintPH

def promptSufA : String :=
  "\n\nPrimary Task: Analyze the provided product information and generate a thorough health report according to the HealthAnalysisOutputSchema.\n\n**CRITICAL INSTRUCTIONS FOR INDIAN AUDIENCE FOCUS:**\n\n1.  **User-Focused Summary (`summary`)**:\n    *   LANGUAGE: Use simple, direct language. Translate scientific terms into plain talk.\n    *   IMMEDIACY: Connect directly with everyday consumption. E.g., \"In India, Coca-Cola contains very high sugar – about 5-6 teaspoons per can – plus chemical additives that can impact your health over time.\"\n    *   REGIONAL COMPARISON (EARLY): If analyzing a global brand, immediately highlight differences if the Indian version is inferior. E.g., \"While these ingredients are technically allowed by Indian food laws (FSSAI), many are discouraged or banned in countries like Europe due to health concerns.\"\n\n2.  **Determine Product Region (`detectedRegion`)**:\n"

def promptSufB : String :=
  "    *   Attempt to determine the 'detectedRegion'. If 'productInfo' contains an explicit region (e.g., \"Coca-Cola India\"), use that.\n    *   If an image is provided, look for regional cues (language, FSSAI marks for India).\n    *   If only a product name is given (e.g., \"Maggi Noodles\"), **assume the 'detectedRegion' is \"India\" by default if userRegionHint is India or not provided, or based on common knowledge for that product in India.** Clearly state this assumption in your analysis reasoning if not explicitly given.\n    *   All subsequent analysis (ingredients, regulations, etc.) should be relevant to this 'detectedRegion'.\n\n3.  **Ingredient-by-Ingredient Analysis (`ingredientAnalysis`)**:\n    *   For each ingredient:\n        *   `name`, `description` (purpose in product).\n"

def promptSufC : String :=
  "        *   `healthEffects`: **Crucially, link to common Indian health issues.** E.g., for Sugar: \"Increases risk of diabetes (India has over 100 million people with or at risk of diabetes) and obesity.\" For Phosphoric Acid: \"May weaken bones over time, a concern for older adults and women in India.\"\n        *   `safetyLevel`: Be specific. E.g., \"High Sugar Content\", \"Potential Carcinogen\", \"Generally Safe\".\n        *   `regionalNotes`: **This is VITAL.** Clearly state if an ingredient is \"Allowed in India, but banned/restricted in EU/US due to [specific reasons like cancer risk, neurotoxicity, etc.].\" Example: \"Caramel Color IV: Allowed in India. Linked to 4-MEI, a possible cancer risk. Its use is restricted or replaced with natural alternatives in EU/US.\"\n"

def promptSufD : String :=
  "        *   `ingredientRiskFlag`: Set to \"REGIONAL_CONCERN\" if particularly problematic in the Indian formulation compared to others.\n        *   `specificConcerns`: Populate with short, impactful phrases for UI flags. E.g., [\"High Sugar\", \"Contains 4-MEI (possible cancer risk)\", \"Artificial Sweetener (Aspartame)\"].\n\n4.  **Preservatives and Additives Analysis (`preservativesAndAdditivesAnalysis`)**:\n    *   Provide a DETAILED breakdown of common preservatives and additives.\n    *   Identify them by name and E-number if possible (e.g., \"Sodium Benzoate (E211)\").\n    *   Discuss their purpose, potential health impacts (especially those debated or with concerns in the Indian context), and regulatory status differences between India and stricter regions (EU/US).\n"

def promptSufE : String :=
  "    *   If the input is generic (e.g., product name), list common additives found in that product category for the 'detectedRegion'.\n\n5.  **Regional Variations (`regionalVariations`)**:\n    *   For global brands, actively research and report on known variations in major regions like EU, US, UK.\n    *   Compare them to the product from 'detectedRegion'. If analyzing an Indian product, highlight if EU/US versions are \"CLEANER_VARIANT\".\n    *   Use \"+ \" for positive changes and \"- \" for negative/absent controversial ingredients relative to the primary product.\n\n6.  **Packaging Analysis (`packagingAnalysis`)**:\n    *   Focus on 'detectedRegion'. E.g., For India: \"Many products use PET plastic bottles. Under Indian heat and storage conditions, there's a concern these plastics might leach small amounts of chemicals into the food/drink over time.\"\n\n"

def promptSufF : String :=
  "7.  **Overall Risk Score & Level (`overallRiskScore`, `overallRiskLevel`)**:\n    *   Derive a numeric score (1-5, 1=low concern, 5=high concern) and a qualitative level (\"Low Concern\", \"Moderate Concern\", \"High Concern\").\n    *   Base this on: severity of ingredient concerns (especially those flagged for India), number of controversial additives, comparison to cleaner international variants, and sugar/salt/fat levels if discernible.\n    *   Example: A product with high sugar, multiple controversial additives common in India but banned elsewhere, and a \"POTENTIALLY_RISKIER_VARIANT\" status compared to EU might get a 4/5 (\"High Concern\").\n\n8.  **Estimated Nutri-Score (`estimatedNutriScore`)**:\n"

def promptSufG : String :=
  "    *   Based on your overall qualitative analysis of ingredients (sugar content, presence of beneficial vs. harmful ingredients, product type), provide an *estimated* Nutri-Score like letter grade (A, B, C, D, E).\n    *   'A' indicates a healthier choice, 'E' a less healthy one.\n    *   **This is an estimation.** Since you don't have quantitative nutritional data (grams of sugar, fat, etc.), clearly state that this is an approximation in the 'breakdown' or 'summary' section (e.g., \"Based on its ingredients, we estimate this product would likely receive a Nutri-Score of C. This is an approximation as full nutritional data is not available for precise calculation.\").\n    *   If the product is clearly very unhealthy (e.g., sugary drink with many additives), it should be D or E. If it's relatively clean (e.g., plain yogurt), it might be A or B.\n\n"

def promptSufH : String :=
  "9.  **Healthier Alternatives (`healthierAlternatives`)**:\n    *   Suggest 2-4 PRACTICAL and LOCALLY AVAILABLE alternatives in India. E.g., \"Fresh lime soda (nimbu pani)\", \"Plain Lassi\", \"Coconut Water\", \"Branded options with lower sugar if known\".\n\n10. **Corporate Practices Note (`corporatePracticesNote`)**:\n    *   If applicable for global brands, include a statement like: \"It's common for some multinational companies to use cheaper or lower-grade ingredients in countries like India, while their products sold in regions with stricter laws (like the EU or US) use higher-quality or safer alternatives. This is often a cost-saving measure.\"\n\n11. **Consumer Rights Tip (`consumerRightsTip`)**:\n    *   For India (or detectedRegion if different and known), provide a relevant tip.\n"

def promptSufI : String :=
  "    *   **Default for India:** \"Did you know? As a consumer in India, you can file complaints with the Food Safety and Standards Authority of India (FSSAI) if you find product labeling to be misleading or incomplete. Visit their portal: https://foodlicensing.fssai.gov.in/cmsweb/Complaints.aspx\"\n\n12. **Confidence Score (`confidenceScore`)**:\n    *   Maintain existing logic but ensure reasoning reflects that analysis of a product name is for a *typical regional variant*.\n\n13. **Sources**: Prioritize FSSAI, Indian consumer reports, Open Food Facts (India), alongside global databases.\n\nTone: Empathetic, empowering, informative, and direct. Highlight discrepancies to build trust.\n\nGenerate the full JSON output according to the HealthAnalysisOutputSchema. Ensure all new fields are populated thoughtfully.\n"

def promptSuf : String :=
  promptSufA ++ promptSufB ++ promptSufC ++ promptSufD ++ promptSufE ++ promptSufF ++ promptSufG ++ promptSufH ++ promptSufI

def basePromptTemplate : String :=
  promptPre ++ productInfoPH ++ promptMid ++ promptIfOpen ++ promptIfInner ++ promptIfClose ++ promptSuf

theorem headFree_promptPre : headFree braceChar promptPre.data = true := by decide

theorem headFree_promptMid : headFree braceChar promptMid.data = true := by decide

theorem headFree_userRegionLabel : headFree braceChar userRegionLabel.data = true := by decide

theorem headFree_promptSufA : headFree braceChar promptSufA.data = true := by decide

theorem headFree_promptSufB : headFree braceChar promptSufB.data = true := by decide

theorem headFree_promptSufC : headFree braceChar promptSufC.data = true := by decide

theorem headFree_promptSufD : headFree braceChar promptSufD.data = true := by decide

theorem headFree_promptSufE : headFree braceChar promptSufE.data = true := by decide

theorem headFree_promptSufF : headFree braceChar promptSufF.data = true := by decide

theorem headFree_promptSufG : headFree braceChar promptSufG.data = true := by decide

theorem headFree_promptSufH : headFree braceChar promptSufH.data = true := by decide

theorem headFree_promptSufI : headFree braceChar promptSufI.data = true := by decide

theorem headFree_promptSuf : headFree braceChar promptSuf.data = true := by
  have h : promptSuf.data = promptSufA.data ++ promptSufB.data ++ promptSufC.data ++ promptSufD.data ++ promptSufE.data ++ promptSufF.data ++ promptSufG.data ++ promptSufH.data ++ promptSufI.data := by
    simp only [promptSuf, String.data_append]
  rw [h]
  simp only [List.append_assoc]
  exact headFree_append headFree_promptSufA (headFree_append headFree_promptSufB (headFree_append headFree_promptSufC (headFree_append headFree_promptSufD (headFree_append headFree_promptSufE (headFree_append headFree_promptSufF (headFree_append headFree_promptSufG (headFree_append headFree_promptSufH (headFree_promptSufI))))))))


/-! ## Cross-pattern occurrence facts (settled once by `decide`) -/

theorem productInfoPH_cons :
    productInfoPH.data = braceChar :: "\x7b\x7bproductInfo\x7d\x7d\x7d".data := by decide

theorem userRegionHintPH_cons :
    userRegionHintPH.data = braceChar :: "\x7b\x7buserRegionHint\x7d\x7d\x7d".data := by decide

theorem promptIfOpen_cons :
    promptIfOpen.data = braceChar :: "\x7b#if userRegionHint\x7d\x7d".data := by decide

theorem promptIfClose_cons :
    promptIfClose.data = braceChar :: "\x7b/if\x7d\x7d".data := by decide

theorem nE_pat1_open : noEdgeOcc productInfoPH.data promptIfOpen.data = true := by decide

theorem nE_pat1_PH2 : noEdgeOcc productInfoPH.data userRegionHintPH.data = true := by decide

theorem nE_pat1_close : noEdgeOcc productInfoPH.data promptIfClose.data = true := by decide

theorem nE_pat2_open : noEdgeOcc userRegionHintPH.data promptIfOpen.data = true := by decide

theorem nE_pat2_close : noEdgeOcc userRegionHintPH.data promptIfClose.data = true := by decide

theorem nE_close_PH2 : noEdgeOcc promptIfClose.data userRegionHintPH.data = true := by decide

/-- Build a `noEdgeOcc` fact for a brace-headed pattern over brace-free text. -/
theorem noEdgeOcc_braced {pat tl : List Char} (hcons : pat = braceChar :: tl)
    {a : List Char} (ha : headFree braceChar a = true) : noEdgeOcc pat a = true := by
  rw [hcons]
  exact noEdgeOcc_of_headFree ha

/-- Brace-freeness of a string: hypothesis under which user-supplied text cannot
interfere with the handlebars markers of the template. -/
def noBrace (s : String) : Bool :=
  headFree braceChar s.data

theorem mk_data (l : List Char) : (String.mk l).data = l := rfl

theorem stringExt {a b : String} (h : a.data = b.data) : a = b := congrArg String.mk h

theorem replaceAllFuel_matchAt {pat repl : List Char} (hne : pat ≠ []) (b : List Char) (n : Nat) :
    replaceAllFuel pat repl (pat.length + n) (pat ++ b) =
      repl ++ replaceAllFuel pat repl (pat.length - 1 + n) b := by
  cases pat with
  | nil => cases hne rfl
  | cons p pt => simpa using replaceAllFuel_match b n

theorem splitAtSubFuel_matchAt {pat : List Char} (hne : pat ≠ []) (b : List Char) (n : Nat) :
    splitAtSubFuel pat (pat.length + n) (pat ++ b) = some ([], b) := by
  cases pat with
  | nil => cases hne rfl
  | cons p pt => exact splitAtSubFuel_match b n

theorem processIfFuel_at_opener {op cl : List Char} {f : List Char → List Char}
    {p : Char} {pt : List Char} (hop : op = p :: pt) (X : List Char) (m : Nat) :
    processIfFuel op cl f (m + 1) (op ++ X) =
      (match splitAtSubFuel cl (pt.length + X.length) X with
       | some (inner, after) => f inner ++ processIfFuel op cl f m after
       | none => op ++ X) := by
  subst hop
  have hpre : (p :: pt).isPrefixOf ((p :: pt) ++ X) = true := isPrefixOf_append_self _ X
  have hdrop : List.drop ((p :: pt).length - 1) (pt ++ X) = X := by
    simp only [List.length_cons]
    exact List.drop_left' (by omega)
  have hlen : (pt ++ X).length = pt.length + X.length := by
    simp only [List.length_append]
  simp only [List.cons_append] at hpre ⊢
  simp [processIfFuel, hpre, hdrop, hlen]

/-! ## Rendering the template

`fillPromptTemplate` from the source (the Ollama prompt builder): a per-key
global find-and-replace pass over the template, followed by the conditional
region-hint block handling.  JS truthiness: the block is stripped whenever
`data.userRegionHint` is `undefined` or the empty string. -/

def fillPromptTemplate (template : String) (productInfo : String)
    (userRegionHint : Option String) : String :=
  let r1 := replaceAllS productInfoPH productInfo template
  let r2 := match userRegionHint with
    | some h => replaceAllS userRegionHintPH h r1
    | none => r1
  match userRegionHint with
  | some h =>
    if h = "" then
      processIfS promptIfOpen promptIfClose (fun _ => "") r2
    else
      processIfS promptIfOpen promptIfClose (fun p1 => replaceFirstS userRegionHintPH h p1) r2
  | none => processIfS promptIfOpen promptIfClose (fun _ => "") r2

def promptTail : String :=
  promptMid ++ promptIfOpen ++ promptIfInner ++ promptIfClose ++ promptSuf

theorem replaceAll_pi_render (pi : String) :
    replaceAllS productInfoPH pi basePromptTemplate = promptPre ++ pi ++ promptTail := by
  apply stringExt
  have hnem : productInfoPH.data.isEmpty = false := by decide
  have hsplit : basePromptTemplate.data =
      promptPre.data ++ (productInfoPH.data ++ promptTail.data) := by
    simp only [basePromptTemplate, promptTail, String.data_append, List.append_assoc]
  have htail : promptTail.data =
      promptMid.data ++ (promptIfOpen.data ++ (userRegionLabel.data ++
        (userRegionHintPH.data ++ (promptIfClose.data ++ promptSuf.data)))) := by
    simp only [promptTail, promptIfInner, String.data_append, List.append_assoc]
  have hstop : noPrefixAnySuffix productInfoPH.data promptTail.data [] = true := by
    rw [htail]
    refine nps_of_noEdgeOcc ?_ []
    exact noEdgeOcc_append (noEdgeOcc_braced productInfoPH_cons headFree_promptMid)
      (noEdgeOcc_append nE_pat1_open
        (noEdgeOcc_append (noEdgeOcc_braced productInfoPH_cons headFree_userRegionLabel)
          (noEdgeOcc_append nE_pat1_PH2
            (noEdgeOcc_append nE_pat1_close
              (noEdgeOcc_braced productInfoPH_cons headFree_promptSuf)))))
  simp only [replaceAllS, hnem, Bool.false_eq_true, if_false, mk_data]
  rw [hsplit]
  rw [show (promptPre.data ++ (productInfoPH.data ++ promptTail.data)).length =
      promptPre.data.length + (productInfoPH.data.length + promptTail.data.length) from by
    simp only [List.length_append]]
  rw [replaceAllFuel_skip
    (nps_of_noEdgeOcc (noEdgeOcc_braced productInfoPH_cons headFree_promptPre) _) _]
  rw [replaceAllFuel_matchAt (by rw [productInfoPH_cons]; exact List.cons_ne_nil _ _) _ _]
  rw [replaceAllFuel_stop hstop _]
  simp only [String.data_append, List.append_assoc]

theorem replaceAll_hint_render (pi h : String) (hpi : noBrace pi = true) :
    replaceAllS userRegionHintPH h (promptPre ++ pi ++ promptTail) =
      promptPre ++ pi ++ promptMid ++ promptIfOpen ++ userRegionLabel ++ h ++
        promptIfClose ++ promptSuf := by
  apply stringExt
  have hnem : userRegionHintPH.data.isEmpty = false := by decide
  have hzone : noEdgeOcc userRegionHintPH.data
      (promptPre.data ++ (pi.data ++ (promptMid.data ++ (promptIfOpen.data ++
        userRegionLabel.data)))) = true :=
    noEdgeOcc_append (noEdgeOcc_braced userRegionHintPH_cons headFree_promptPre)
      (noEdgeOcc_append (noEdgeOcc_braced userRegionHintPH_cons hpi)
        (noEdgeOcc_append (noEdgeOcc_braced userRegionHintPH_cons headFree_promptMid)
          (noEdgeOcc_append nE_pat2_open
            (noEdgeOcc_braced userRegionHintPH_cons headFree_userRegionLabel))))
  have hstop : noPrefixAnySuffix userRegionHintPH.data
      (promptIfClose.data ++ promptSuf.data) [] = true := by
    refine nps_of_noEdgeOcc ?_ []
    exact noEdgeOcc_append nE_pat2_close
      (noEdgeOcc_braced userRegionHintPH_cons headFree_promptSuf)
  have hsplit : (promptPre ++ pi ++ promptTail).data =
      (promptPre.data ++ (pi.data ++ (promptMid.data ++ (promptIfOpen.data ++
        userRegionLabel.data)))) ++
      (userRegionHintPH.data ++ (promptIfClose.data ++ promptSuf.data)) := by
    simp only [promptTail, promptIfInner, String.data_append, List.append_assoc]
  simp only [replaceAllS, hnem, Bool.false_eq_true, if_false, mk_data]
  rw [hsplit]
  rw [show ((promptPre.data ++ (pi.data ++ (promptMid.data ++ (promptIfOpen.data ++
      userRegionLabel.data)))) ++
      (userRegionHintPH.data ++ (promptIfClose.data ++ promptSuf.data))).length =
      (promptPre.data ++ (pi.data ++ (promptMid.data ++ (promptIfOpen.data ++
        userRegionLabel.data)))).length +
      (userRegionHintPH.data.length + (promptIfClose.data ++ promptSuf.data).length) from by
    simp only [List.length_append]]
  rw [replaceAllFuel_skip (nps_of_noEdgeOcc hzone _) _]
  rw [replaceAllFuel_matchAt (by rw [userRegionHintPH_cons]; exact List.cons_ne_nil _ _) _ _]
  rw [replaceAllFuel_stop hstop _]
  simp only [String.data_append, List.append_assoc]


theorem processIf_render (f : String → String) (pi w out : String)
    (hpi : noBrace pi = true)
    (hw : noEdgeOcc promptIfClose.data w.data = true)
    (hf : f w = out) :
    processIfS promptIfOpen promptIfClose f
      (promptPre ++ pi ++ promptMid ++ promptIfOpen ++ w ++ promptIfClose ++ promptSuf) =
      promptPre ++ pi ++ promptMid ++ out ++ promptSuf := by
  apply stringExt
  have hol : promptIfOpen.data.length = 22 := by decide
  have hcl : promptIfClose.data.length = 7 := by decide
  have hzone : noEdgeOcc promptIfOpen.data
      (promptPre.data ++ (pi.data ++ promptMid.data)) = true :=
    noEdgeOcc_append (noEdgeOcc_braced promptIfOpen_cons headFree_promptPre)
      (noEdgeOcc_append (noEdgeOcc_braced promptIfOpen_cons hpi)
        (noEdgeOcc_braced promptIfOpen_cons headFree_promptMid))
  have hsplit : (promptPre ++ pi ++ promptMid ++ promptIfOpen ++ w ++ promptIfClose ++
      promptSuf).data =
      (promptPre.data ++ (pi.data ++ promptMid.data)) ++
        (promptIfOpen.data ++ (w.data ++ (promptIfClose.data ++ promptSuf.data))) := by
    simp only [String.data_append, List.append_assoc]
  simp only [processIfS, mk_data]
  rw [hsplit]
  rw [show ((promptPre.data ++ (pi.data ++ promptMid.data)) ++
      (promptIfOpen.data ++ (w.data ++ (promptIfClose.data ++ promptSuf.data)))).length =
      (promptPre.data ++ (pi.data ++ promptMid.data)).length +
      ((21 + (w.data ++ (promptIfClose.data ++ promptSuf.data)).length) + 1) from by
    simp only [List.length_append]
    omega]
  rw [processIfFuel_skip (nps_of_noEdgeOcc hzone _) _]
  rw [processIfFuel_at_opener promptIfOpen_cons _ _]
  rw [show ("\x7b#if userRegionHint\x7d\x7d".data).length +
      (w.data ++ (promptIfClose.data ++ promptSuf.data)).length =
      w.data.length + (promptIfClose.data.length +
        (("\x7b#if userRegionHint\x7d\x7d".data).length + promptSuf.data.length)) from by
    simp only [List.length_append]
    omega]
  rw [splitAtSubFuel_skip (nps_of_noEdgeOcc hw _) _]
  rw [splitAtSubFuel_matchAt (by rw [promptIfClose_cons]; exact List.cons_ne_nil _ _) _ _]
  simp only [List.append_nil]
  rw [show (String.mk w.data) = w from rfl]
  rw [hf]
  rw [processIfFuel_stop
    (nps_of_noEdgeOcc (noEdgeOcc_braced promptIfOpen_cons headFree_promptSuf) []) _]
  simp only [String.data_append, List.append_assoc]

theorem fillPromptTemplate_some (pi h : String) (hpi : noBrace pi = true)
    (hh : noBrace h = true) (hne : ¬ (h = "")) :
    fillPromptTemplate basePromptTemplate pi (some h) =
      promptPre ++ pi ++ promptMid ++ (userRegionLabel ++ h) ++ promptSuf := by
  have hw : noEdgeOcc promptIfClose.data (userRegionLabel ++ h).data = true := by
    rw [String.data_append]
    exact noEdgeOcc_append (noEdgeOcc_braced promptIfClose_cons headFree_userRegionLabel)
      (noEdgeOcc_braced promptIfClose_cons hh)
  have hfix : replaceFirstS userRegionHintPH h (userRegionLabel ++ h) = userRegionLabel ++ h := by
    apply stringExt
    have hnem : userRegionHintPH.data.isEmpty = false := by decide
    simp only [replaceFirstS, hnem, Bool.false_eq_true, if_false, mk_data, String.data_append]
    apply replaceFirstFuel_stop
    refine nps_of_noEdgeOcc ?_ []
    exact noEdgeOcc_append (noEdgeOcc_braced userRegionHintPH_cons headFree_userRegionLabel)
      (noEdgeOcc_braced userRegionHintPH_cons hh)
  have hre : promptPre ++ pi ++ promptMid ++ promptIfOpen ++ userRegionLabel ++ h ++
      promptIfClose ++ promptSuf =
      promptPre ++ pi ++ promptMid ++ promptIfOpen ++ (userRegionLabel ++ h) ++
        promptIfClose ++ promptSuf := by
    apply stringExt
    simp only [String.data_append, List.append_assoc]
  simp only [fillPromptTemplate]
  rw [if_neg hne]
  rw [replaceAll_pi_render, replaceAll_hint_render pi h hpi, hre]
  exact processIf_render _ pi (userRegionLabel ++ h) (userRegionLabel ++ h) hpi hw hfix

theorem fillPromptTemplate_none (pi : String) (hpi : noBrace pi = true) :
    fillPromptTemplate basePromptTemplate pi none =
      promptPre ++ pi ++ promptMid ++ promptSuf := by
  have hw : noEdgeOcc promptIfClose.data promptIfInner.data = true := by
    have hd : promptIfInner.data = userRegionLabel.data ++ userRegionHintPH.data := by
      simp only [promptIfInner, String.data_append]
    rw [hd]
    exact noEdgeOcc_append (noEdgeOcc_braced promptIfClose_cons headFree_userRegionLabel)
      nE_close_PH2
  have hre : promptPre ++ pi ++ promptTail =
      promptPre ++ pi ++ promptMid ++ promptIfOpen ++ promptIfInner ++
        promptIfClose ++ promptSuf := by
    apply stringExt
    simp only [promptTail, String.data_append, List.append_assoc]
  simp only [fillPromptTemplate]
  rw [replaceAll_pi_render, hre]
  have h0 := processIf_render (fun _ => "") pi promptIfInner "" hpi hw rfl
  rw [h0]
  apply stringExt
  have he : ("" : String).data = [] := rfl
  simp only [String.data_append, he, List.append_assoc, List.nil_append]

theorem fillPromptTemplate_emptyHint (pi : String) (hpi : noBrace pi = true) :
    fillPromptTemplate basePromptTemplate pi (some "") =
      promptPre ++ pi ++ promptMid ++ promptSuf := by
  have hh : noBrace ("" : String) = true := by decide
  have hw : noEdgeOcc promptIfClose.data (userRegionLabel ++ ("" : String)).data = true := by
    rw [String.data_append]
    exact noEdgeOcc_append (noEdgeOcc_braced promptIfClose_cons headFree_userRegionLabel)
      (noEdgeOcc_braced promptIfClose_cons hh)
  have hre : promptPre ++ pi ++ promptMid ++ promptIfOpen ++ userRegionLabel ++ ("" : String) ++
      promptIfClose ++ promptSuf =
      promptPre ++ pi ++ promptMid ++ promptIfOpen ++ (userRegionLabel ++ ("" : String)) ++
        promptIfClose ++ promptSuf := by
    apply stringExt
    simp only [String.data_append, List.append_assoc]
  simp only [fillPromptTemplate]
  simp only [if_true]
  rw [replaceAll_pi_render, replaceAll_hint_render pi "" hpi, hre]
  have h0 := processIf_render (fun _ => "") pi (userRegionLabel ++ "") "" hpi hw rfl
  rw [h0]
  apply stringExt
  have he : ("" : String).data = [] := rfl
  simp only [String.data_append, he, List.append_assoc, List.nil_append]


/-! ## JSON values and JS property access

JSON values as delivered by `response.json()` / produced by `JSON.parse`.
`getFieldJ` models JS property access returning `none` for `undefined`
(property access on a non-null primitive also yields `undefined`); access on
`null` throws, which the extraction function handles explicitly. -/

inductive Json where
  | null
  | bool (b : Bool)
  | num (q : ℚ)
  | str (s : String)
  | arr (elems : List Json)
  | obj (fields : List (String × Json))

def lookupField : List (String × Json) → String → Option Json
  | [], _ => none
  | (k, v) :: rest, key => if k = key then some v else lookupField rest key

def getFieldJ : Json → String → Option Json
  | .obj fs, k => lookupField fs k
  | _, _ => none

/-- JS truthiness of a JSON value (`NaN` is not modelled). -/
def jsTruthy : Json → Bool
  | .null => false
  | .bool b => b
  | .num q => decide (q ≠ 0)
  | .str s => decide (s ≠ "")
  | .arr _ => true
  | .obj _ => true

mutual
/-- `JSON.stringify`, as used in the source only to embed a payload into an
error message (non-integer number formatting is approximated; field order is
the object's insertion order, as in JS). -/
def stringifyJson : Json → String
  | .null => "null"
  | .bool true => "true"
  | .bool false => "false"
  | .num q => if q.den = 1 then toString q.num else toString q.num ++ "/" ++ toString q.den
  | .str s => "\"" ++ s ++ "\""
  | .arr xs => "[" ++ stringifyArr xs ++ "]"
  | .obj fs => "\x7b" ++ stringifyFields fs ++ "\x7d"
def stringifyArr : List Json → String
  | [] => ""
  | [x] => stringifyJson x
  | x :: rest => stringifyJson x ++ "," ++ stringifyArr rest
def stringifyFields : List (String × Json) → String
  | [] => ""
  | [(k, v)] => "\"" ++ k ++ "\":" ++ stringifyJson v
  | (k, v) :: rest => "\"" ++ k ++ "\":" ++ stringifyJson v ++ "," ++ stringifyFields rest
end

/-! ## Data model: the input and output schemas

`HealthAnalysisInputSchema` and `HealthAnalysisOutputSchema` from the source.
`aiServiceProvider` is kept as a string, as at the JS runtime level, so that
the flow body\'s `default: throw` switch branch is representable; the four
schema-accepted values are listed in `validProviders`.  Numbers are modelled
as rationals. -/

inductive RiskFlag where
  | regionalConcern
  | generallyConsistent
  | noneFlag
deriving DecidableEq

inductive VariantIndicator where
  | cleaner
  | different
  | riskier
  | unknown
deriving DecidableEq

inductive NutriScore where
  | A
  | B
  | C
  | D
  | E
deriving DecidableEq

structure IngredientDetail where
  name : String
  description : String
  healthEffects : String
  safetyLevel : String
  regionalNotes : Option String
  ingredientRiskFlag : Option RiskFlag
  specificConcerns : Option (List String)
deriving DecidableEq

structure RegionalVariation where
  region : String
  summary : String
  keyDifferences : List String
  variantIndicator : Option VariantIndicator
deriving DecidableEq

structure HealthAnalysisOutput where
  summary : String
  detectedRegion : Option String
  ingredientAnalysis : List IngredientDetail
  packagingAnalysis : String
  preservativesAndAdditivesAnalysis : String
  breakdown : String
  regulatoryStatus : String
  regionalVariations : Option (List RegionalVariation)
  overallWarning : Option String
  confidenceScore : ℚ
  sources : List String
  overallRiskScore : Option ℚ
  overallRiskLevel : Option String
  healthierAlternatives : Option (List String)
  corporatePracticesNote : Option String
  consumerRightsTip : Option String
  estimatedNutriScore : Option NutriScore
deriving DecidableEq

structure HealthAnalysisInput where
  productInfo : String
  userRegionHint : Option String
  aiServiceProvider : String
  ollamaModelName : Option String
deriving DecidableEq

def validProviders : List String :=
  ["ollama", "gemini", "openai", "anthropic"]

/-- The numeric constraints of `HealthAnalysisOutputSchema`: `confidenceScore`
in `[0, 100]`, and `overallRiskScore`, when present, in `[1, 5]`.  All other
constraints of the zod schema are enforced by the Lean types themselves. -/
def validRiskB : Option ℚ → Bool
  | none => true
  | some r => decide (1 ≤ r) && decide (r ≤ 5)

def validOutputB (o : HealthAnalysisOutput) : Bool :=
  decide (0 ≤ o.confidenceScore) && decide (o.confidenceScore ≤ 100) &&
    validRiskB o.overallRiskScore

/-! ## The zod output validation (`HealthAnalysisOutputSchema.safeParse`) -/

def decodeReqString (j : Json) (k : String) : Option String :=
  match getFieldJ j k with
  | some (.str s) => some s
  | _ => none

def decodeOptString (j : Json) (k : String) : Option (Option String) :=
  match getFieldJ j k with
  | none => some none
  | some (.str s) => some (some s)
  | some _ => none

def decodeStrList : List Json → Option (List String) :=
  List.mapM fun x =>
    match x with
    | Json.str s => some s
    | _ => none

def decodeReqStrArray (j : Json) (k : String) : Option (List String) :=
  match getFieldJ j k with
  | some (.arr xs) => decodeStrList xs
  | _ => none

def decodeOptStrArray (j : Json) (k : String) : Option (Option (List String)) :=
  match getFieldJ j k with
  | none => some none
  | some (.arr xs) => (decodeStrList xs).map some
  | some _ => none

def decodeRiskFlag : Json → Option RiskFlag
  | .str "REGIONAL_CONCERN" => some .regionalConcern
  | .str "GENERALLY_CONSISTENT" => some .generallyConsistent
  | .str "NONE" => some .noneFlag
  | _ => none

def decodeVariantIndicator : Json → Option VariantIndicator
  | .str "CLEANER_VARIANT" => some .cleaner
  | .str "DIFFERENT_VARIANT" => some .different
  | .str "POTENTIALLY_RISKIER_VARIANT" => some .riskier
  | .str "UNKNOWN_VARIANT_STATUS" => some .unknown
  | _ => none

def decodeNutriScore : Json → Option NutriScore
  | .str "A" => some .A
  | .str "B" => some .B
  | .str "C" => some .C
  | .str "D" => some .D
  | .str "E" => some .E
  | _ => none

def decodeNumIn (lo hi : ℚ) (j : Json) : Option ℚ :=
  match j with
  | .num q => if lo ≤ q ∧ q ≤ hi then some q else none
  | _ => none

def decodeIngredient (j : Json) : Option IngredientDetail :=
  match decodeReqString j "name" with
  | none => none
  | some name =>
  match decodeReqString j "description" with
  | none => none
  | some description =>
  match decodeReqString j "healthEffects" with
  | none => none
  | some healthEffects =>
  match decodeReqString j "safetyLevel" with
  | none => none
  | some safetyLevel =>
  match decodeOptString j "regionalNotes" with
  | none => none
  | some regionalNotes =>
  match (match getFieldJ j "ingredientRiskFlag" with
         | none => some none
         | some v => (decodeRiskFlag v).map some : Option (Option RiskFlag)) with
  | none => none
  | some ingredientRiskFlag =>
  match decodeOptStrArray j "specificConcerns" with
  | none => none
  | some specificConcerns =>
  some ⟨name, description, healthEffects, safetyLevel, regionalNotes,
    ingredientRiskFlag, specificConcerns⟩

def decodeVariation (j : Json) : Option RegionalVariation :=
  match decodeReqString j "region" with
  | none => none
  | some region =>
  match decodeReqString j "summary" with
  | none => none
  | some summary =>
  match decodeReqStrArray j "keyDifferences" with
  | none => none
  | some keyDifferences =>
  match (match getFieldJ j "variantIndicator" with
         | none => some none
         | some v => (decodeVariantIndicator v).map some : Option (Option VariantIndicator)) with
  | none => none
  | some variantIndicator =>
  some ⟨region, summary, keyDifferences, variantIndicator⟩

def decodeIngredientListField (j : Json) : Option (List IngredientDetail) :=
  match getFieldJ j "ingredientAnalysis" with
  | some (Json.arr xs) => xs.mapM decodeIngredient
  | _ => none

def decodeVariationsField (j : Json) : Option (Option (List RegionalVariation)) :=
  match getFieldJ j "regionalVariations" with
  | none => some none
  | some (Json.arr xs) => (xs.mapM decodeVariation).map some
  | some _ => none

def decodeConfidenceField (j : Json) : Option ℚ :=
  match getFieldJ j "confidenceScore" with
  | some v => decodeNumIn 0 100 v
  | none => none

def decodeRiskField (j : Json) : Option (Option ℚ) :=
  match getFieldJ j "overallRiskScore" with
  | none => some none
  | some v => (decodeNumIn 1 5 v).map some

def decodeNutriField (j : Json) : Option (Option NutriScore) :=
  match getFieldJ j "estimatedNutriScore" with
  | none => some none
  | some v => (decodeNutriScore v).map some

def decodeOutput (j : Json) : Option HealthAnalysisOutput :=
  match decodeReqString j "summary" with
  | none => none
  | some summary =>
  match decodeOptString j "detectedRegion" with
  | none => none
  | some detectedRegion =>
  match decodeIngredientListField j with
  | none => none
  | some ingredientAnalysis =>
  match decodeReqString j "packagingAnalysis" with
  | none => none
  | some packagingAnalysis =>
  match decodeReqString j "preservativesAndAdditivesAnalysis" with
  | none => none
  | some preservativesAndAdditivesAnalysis =>
  match decodeReqString j "breakdown" with
  | none => none
  | some breakdown =>
  match decodeReqString j "regulatoryStatus" with
  | none => none
  | some regulatoryStatus =>
  match decodeVariationsField j with
  | none => none
  | some regionalVariations =>
  match decodeOptString j "overallWarning" with
  | none => none
  | some overallWarning =>
  match decodeConfidenceField j with
  | none => none
  | some confidenceScore =>
  match decodeReqStrArray j "sources" with
  | none => none
  | some sources =>
  match decodeRiskField j with
  | none => none
  | some overallRiskScore =>
  match decodeOptString j "overallRiskLevel" with
  | none => none
  | some overallRiskLevel =>
  match decodeOptStrArray j "healthierAlternatives" with
  | none => none
  | some healthierAlternatives =>
  match decodeOptString j "corporatePracticesNote" with
  | none => none
  | some corporatePracticesNote =>
  match decodeOptString j "consumerRightsTip" with
  | none => none
  | some consumerRightsTip =>
  match decodeNutriField j with
  | none => none
  | some estimatedNutriScore =>
  some { summary, detectedRegion, ingredientAnalysis, packagingAnalysis,
         preservativesAndAdditivesAnalysis, breakdown, regulatoryStatus,
         regionalVariations, overallWarning, confidenceScore, sources,
         overallRiskScore, overallRiskLevel, healthierAlternatives,
         corporatePracticesNote, consumerRightsTip, estimatedNutriScore }

/-! ## The Ollama response envelope extraction (source lines 215-230) -/

def shapeErrorMsg (ollamaResult : Json) : String :=
  "Ollama response field is not a JSON string or expected object. Full response: " ++
    stringifyJson ollamaResult

/-- Extraction of the candidate output JSON from the Ollama response body.
Mirrors the source\'s `typeof` chain: a string in `response` is parsed again; a
value of JS type object in `response` (which includes `null` and arrays) is
used directly; otherwise a nonempty string at `message.content` is parsed;
anything else is a hard error carrying the stringified payload.  A `null` body
makes the property access itself throw. -/
def extractOllamaOutput (jsonParse : String → Option Json) (ollamaResult : Json) :
    Except String Json :=
  match ollamaResult with
  | .null => .error "TypeError: Cannot read properties of null (reading response)"
  | _ =>
    match getFieldJ ollamaResult "response" with
    | some (.str s) =>
      match jsonParse s with
      | some j => .ok j
      | none =>
        .error ("Ollama returned a string in 'response' that is not valid JSON. Content: " ++ s)
    | some .null => .ok .null
    | some (.obj fs) => .ok (.obj fs)
    | some (.arr xs) => .ok (.arr xs)
    | _ =>
      match getFieldJ ollamaResult "message" with
      | some m =>
        if jsTruthy m then
          match getFieldJ m "content" with
          | some (.str c) =>
            if c = "" then .error (shapeErrorMsg ollamaResult)
            else
              match jsonParse c with
              | some j => .ok j
              | none =>
                .error
                  ("Ollama returned a string in 'message.content' that is not valid JSON. Content: "
                    ++ c)
          | _ => .error (shapeErrorMsg ollamaResult)
        else .error (shapeErrorMsg ollamaResult)
      | none => .error (shapeErrorMsg ollamaResult)

/-! ## Backend oracles and the orchestration flow body

The two network effects of the source (`genkitPromptDefinition(promptData,
\x7bmodel\x7d)` and the `fetch` to the local endpoint) are supplied by an
environment of oracles.  A cloud call either throws or yields an optional
output; when it yields `some o`, genkit has already validated `o` against the
output schema, which is expressed as a hypothesis (`validOutputB o`) where a
claim needs it.  The flow returns, next to its result, the list of backend
invocations it performed, in order. -/

structure CloudPromptData where
  productInfo : String
  userRegionHint : Option String
deriving DecidableEq

structure OllamaRequest where
  model : String
  prompt : String
deriving DecidableEq

inductive CloudResp where
  | throws (msg : String)
  | success (output : Option HealthAnalysisOutput)

inductive OllamaResp where
  | netThrow (msg : String)
  | httpError (status : Nat) (body : String)
  | ok (body : Json)

structure FlowEnv where
  cloudBackend : Nat → CloudPromptData → String → CloudResp
  ollamaBackend : OllamaRequest → OllamaResp
  jsonParse : String → Option Json

inductive BackendCall where
  | cloudCall (attempt : Nat) (data : CloudPromptData) (modelIdentifier : String)
  | ollamaCall (req : OllamaRequest)

def callModel : BackendCall → String
  | .cloudCall _ _ m => m
  | .ollamaCall req => req.model

def isCloudCall : BackendCall → Bool
  | .cloudCall _ _ _ => true
  | .ollamaCall _ => false

def ollamaDefaultModel : String := "qwen3:8b"

/-- The JSON-enforcement suffix appended to the Ollama prompt.  In the source
this string literal is written with `\\n\\n`, so it really starts with the two
characters backslash-n twice, not with newlines. -/
def ollamaJsonDirective : String :=
  "\\n\\nIMPORTANT: Your entire response MUST be a single, valid JSON object matching the HealthAnalysisOutputSchema structure described in the initial instructions. Do not include any explanatory text, comments, or markdown formatting like ```json ... ``` before or after the JSON object itself."

def fssaiDefaultTip : String :=
  "Did you know? As a consumer in India, you can file complaints with the Food Safety and Standards Authority of India (FSSAI) if you find product labeling to be misleading or incomplete. Visit their portal: https://foodlicensing.fssai.gov.in/cmsweb/Complaints.aspx"

/-- JS `s || fallback` for strings: the empty string is falsy. -/
def jsOr (s fallback : String) : String :=
  if s = "" then fallback else s

/-- JS `x || fallback` where `x` is an optional string. -/
def jsOrOpt (x : Option String) (fallback : String) : String :=
  match x with
  | some s => if s = "" then fallback else s
  | none => fallback

/-- JS `x || undefined` for an optional string field. -/
def jsFalsyNone (x : Option String) : Option String :=
  match x with
  | some s => if s = "" then none else some s
  | none => none

/-- JS `modelIdentifier.split('/')[1]` interpolated into a template string. -/
def splitSecond (modelIdentifier : String) : String :=
  (modelIdentifier.splitOn "/").getD 1 "undefined"

/-- The provider-to-model switch of the source; `none` is the `default:
throw` branch for an unsupported provider. -/
def cloudModelOf : String → Option String
  | "gemini" => some "googleai/gemini-2.0-flash"
  | "openai" => some "openai/gpt-3.5-turbo"
  | "anthropic" => some "anthropic/claude-3-haiku-20240307"
  | _ => none

/-- The field-completeness check of the source: `!output.summary ||
!output.ingredientAnalysis || output.ingredientAnalysis.length === 0`. -/
def completenessFails (o : HealthAnalysisOutput) : Bool :=
  o.summary == "" || o.ingredientAnalysis.isEmpty

/-- `!output.consumerRightsTip` in JS: absent or empty-string tip. -/
def tipMissingB : Option String → Bool
  | none => true
  | some t => t == ""

/-- JS `toLowerCase` on the strings involved here (ASCII region names). -/
def lowerStr (s : String) : String :=
  String.mk (s.data.map Char.toLower)

/-- The India test of source lines 314-316: detected region is (case-insensitively)
India, or no truthy detected region and the user hint is India. -/
def regionIndiaB (input : HealthAnalysisInput) (output : HealthAnalysisOutput) : Bool :=
  (match output.detectedRegion with
   | some r => lowerStr r == "india"
   | none => false) ||
  ((match output.detectedRegion with
    | none => true
    | some r => r == "") &&
   (match input.userRegionHint with
    | some h => lowerStr h == "india"
    | none => false))

/-- Source lines 313-320: on a complete first attempt, default the consumer
tip for India and the sources list before returning. -/
def finalizeFirstOutput (input : HealthAnalysisInput) (serviceName : String)
    (output : HealthAnalysisOutput) : HealthAnalysisOutput :=
  let withTip :=
    if tipMissingB output.consumerRightsTip && regionIndiaB input output then
      { output with consumerRightsTip := some fssaiDefaultTip }
    else output
  if withTip.sources.isEmpty then { withTip with sources := [serviceName] } else withTip

/-- Source lines 290-309: the best-effort partial result assembled from the
(incomplete) first attempt after the retry also came back incomplete. -/
def degradedOutput (input : HealthAnalysisInput) (serviceName : String)
    (output : HealthAnalysisOutput) : HealthAnalysisOutput where
  summary := jsOr output.summary
    ("Health analysis from " ++ serviceName ++
      " could not be fully generated. Key information is missing.")
  detectedRegion := some (jsOrOpt output.detectedRegion (jsOrOpt input.userRegionHint "Unknown"))
  ingredientAnalysis := output.ingredientAnalysis
  packagingAnalysis := jsOr output.packagingAnalysis "Not available."
  preservativesAndAdditivesAnalysis :=
    jsOr output.preservativesAndAdditivesAnalysis "Not available."
  breakdown := jsOr output.breakdown
    "Partial data available. Critical analysis components might be missing."
  regulatoryStatus := jsOr output.regulatoryStatus "Status not available."
  regionalVariations := some (output.regionalVariations.getD [])
  overallWarning := jsFalsyNone output.overallWarning
  confidenceScore := if output.confidenceScore = 0 then 0 else output.confidenceScore
  sources := if output.sources.length > 0 then output.sources else [serviceName]
  overallRiskScore := output.overallRiskScore
  overallRiskLevel := output.overallRiskLevel
  healthierAlternatives := output.healthierAlternatives
  corporatePracticesNote := output.corporatePracticesNote
  consumerRightsTip := output.consumerRightsTip
  estimatedNutriScore := output.estimatedNutriScore

/-- Source lines 322-345: the catch-all converting any internal throw into a
schema-valid result. -/
def serviceDetailOf (input : HealthAnalysisInput) : String :=
  if input.aiServiceProvider = "ollama" then
    "Ollama (" ++
      (match input.ollamaModelName with
       | some m => if m = "" then "default" else m
       | none => "default") ++ ")"
  else input.aiServiceProvider

def errorFallbackOutput (input : HealthAnalysisInput) (msg : String) :
    HealthAnalysisOutput :=
  let serviceDetail := serviceDetailOf input
  { summary := "AI service error (" ++ serviceDetail ++ "): " ++
      (if msg = "" then "Unknown error during health analysis." else msg)
    detectedRegion := some (jsOrOpt input.userRegionHint "Error")
    ingredientAnalysis := []
    packagingAnalysis := "Not available due to error."
    preservativesAndAdditivesAnalysis := "Not available due to error."
    breakdown := "Analysis incomplete due to an error."
    regulatoryStatus := "Status not available."
    regionalVariations := some []
    overallWarning := some ("Analysis could not be performed due to an internal error with " ++
      serviceDetail ++ ".")
    confidenceScore := 0
    sources := ["Error in processing"]
    overallRiskScore := none
    overallRiskLevel := some "Error"
    healthierAlternatives := some []
    corporatePracticesNote := some "Not available due to error."
    consumerRightsTip := some "Not available due to error."
    estimatedNutriScore := none }

/-- The Ollama model selection: `ollamaModelName || 'qwen3:8b'` (JS `||`, so a
present-but-empty name also falls back to the default). -/
def ollamaModelIdentifierOf (input : HealthAnalysisInput) : String :=
  match input.ollamaModelName with
  | some m => if m = "" then ollamaDefaultModel else m
  | none => ollamaDefaultModel

/-- The POST body sent to the local endpoint (model and fully rendered
prompt; `stream: false, format: 'json'` are constant in the source). -/
def ollamaRequestOf (input : HealthAnalysisInput) : OllamaRequest :=
  ⟨ollamaModelIdentifierOf input,
   fillPromptTemplate basePromptTemplate input.productInfo input.userRegionHint ++
     ollamaJsonDirective⟩

def ollamaServiceNameOf (input : HealthAnalysisInput) : String :=
  "Ollama (" ++ ollamaModelIdentifierOf input ++ ")"

/-- The Ollama branch of the flow body (source lines 188-245). -/
def runOllama (env : FlowEnv) (input : HealthAnalysisInput) :
    Except String HealthAnalysisOutput × List BackendCall :=
  let req := ollamaRequestOf input
  match env.ollamaBackend req with
  | .netThrow msg => (.error msg, [.ollamaCall req])
  | .httpError status body =>
    (.error ("Ollama API request failed: " ++ toString status ++ " - " ++ body),
     [.ollamaCall req])
  | .ok body =>
    match extractOllamaOutput env.jsonParse body with
    | .error msg => (.error msg, [.ollamaCall req])
    | .ok outputJson =>
      match decodeOutput outputJson with
      | none =>
        (.error ("Ollama output did not match the expected schema. Validation errors: " ++
          stringifyJson outputJson), [.ollamaCall req])
      | some data =>
        (.ok { data with
            confidenceScore := if data.confidenceScore > 0 then data.confidenceScore else 60
            sources :=
              if data.sources.length > 0 then data.sources else [ollamaServiceNameOf input] },
         [.ollamaCall req])

def cloudPromptDataOf (input : HealthAnalysisInput) : CloudPromptData :=
  ⟨input.productInfo, input.userRegionHint⟩

def cloudServiceNameOf (input : HealthAnalysisInput) (modelIdentifier : String) : String :=
  input.aiServiceProvider ++ " (" ++ splitSecond modelIdentifier ++ ")"

/-- The hosted-provider branch of the flow body (source lines 263-320). -/
def runCloud (env : FlowEnv) (input : HealthAnalysisInput) (modelIdentifier : String) :
    Except String HealthAnalysisOutput × List BackendCall :=
  let serviceName := cloudServiceNameOf input modelIdentifier
  let promptData := cloudPromptDataOf input
  let call0 : BackendCall := .cloudCall 0 promptData modelIdentifier
  let call1 : BackendCall := .cloudCall 1 promptData modelIdentifier
  match env.cloudBackend 0 promptData modelIdentifier with
  | .throws msg => (.error msg, [call0])
  | .success none =>
    match env.cloudBackend 1 promptData modelIdentifier with
    | .throws msg => (.error msg, [call0, call1])
    | .success (some retryOutput) => (.ok retryOutput, [call0, call1])
    | .success none =>
      (.error ("Failed to generate health analysis from " ++ serviceName ++ " after retry."),
       [call0, call1])
  | .success (some output) =>
    if completenessFails output then
      match env.cloudBackend 1 promptData modelIdentifier with
      | .throws msg => (.error msg, [call0, call1])
      | .success (some retryOutput) =>
        if completenessFails retryOutput then
          (.ok (degradedOutput input serviceName output), [call0, call1])
        else
          (.ok retryOutput, [call0, call1])
      | .success none => (.ok (degradedOutput input serviceName output), [call0, call1])
    else
      (.ok (finalizeFirstOutput input serviceName output), [call0])

/-- The body of `generateHealthAnalysisFlow` (the `try` block plus provider
routing; a `.error` is a thrown exception inside the `try`). -/
def flowBody (env : FlowEnv) (input : HealthAnalysisInput) :
    Except String HealthAnalysisOutput × List BackendCall :=
  if input.aiServiceProvider = "ollama" then runOllama env input
  else
    match cloudModelOf input.aiServiceProvider with
    | some modelIdentifier => runCloud env input modelIdentifier
    | none => (.error ("Unsupported AI service provider: " ++ input.aiServiceProvider), [])

/-- `generateHealthAnalysisFlow`: the flow body with its catch-all, which
converts every internal exception into `errorFallbackOutput`. -/
def generateHealthAnalysisFlow (env : FlowEnv) (input : HealthAnalysisInput) :
    HealthAnalysisOutput × List BackendCall :=
  match flowBody env input with
  | (.ok output, calls) => (output, calls)
  | (.error msg, calls) => (errorFallbackOutput input msg, calls)

/-- The exported `generateHealthAnalysis` just invokes the flow. -/
def generateHealthAnalysis (env : FlowEnv) (input : HealthAnalysisInput) :
    HealthAnalysisOutput × List BackendCall :=
  generateHealthAnalysisFlow env input


/-! ## Validity lemmas: every result the flow can return satisfies the
output schema\'s numeric constraints -/

theorem validOutputB_errorFallback (input : HealthAnalysisInput) (msg : String) :
    validOutputB (errorFallbackOutput input msg) = true := by
  simp [validOutputB, errorFallbackOutput, validRiskB]

theorem decodeConfidenceField_ok {j : Json} {q : ℚ}
    (h : decodeConfidenceField j = some q) :
    (decide (0 ≤ q) && decide (q ≤ 100)) = true := by
  cases hf : getFieldJ j "confidenceScore" with
  | none => simp [decodeConfidenceField, hf] at h
  | some v =>
    simp only [decodeConfidenceField, hf] at h
    cases v with
    | num qq =>
      simp only [decodeNumIn] at h
      split at h
      · rename_i hc
        obtain rfl := Option.some.inj h
        simp [hc.1, hc.2]
      · exact Option.noConfusion h
    | null => simp [decodeNumIn] at h
    | bool b => simp [decodeNumIn] at h
    | str s => simp [decodeNumIn] at h
    | arr xs => simp [decodeNumIn] at h
    | obj fs => simp [decodeNumIn] at h

theorem decodeRiskField_ok {j : Json} {r : Option ℚ}
    (h : decodeRiskField j = some r) : validRiskB r = true := by
  cases hf : getFieldJ j "overallRiskScore" with
  | none =>
    simp only [decodeRiskField, hf] at h
    obtain rfl := Option.some.inj h
    rfl
  | some v =>
    simp only [decodeRiskField, hf] at h
    cases v with
    | num qq =>
      by_cases hb : 1 ≤ qq ∧ qq ≤ 5
      · simp only [decodeNumIn, if_pos hb, Option.map] at h
        obtain rfl := Option.some.inj h
        simp [validRiskB, hb.1, hb.2]
      · simp [decodeNumIn, if_neg hb] at h
    | null => simp [decodeNumIn] at h
    | bool b => simp [decodeNumIn] at h
    | str s => simp [decodeNumIn] at h
    | arr xs => simp [decodeNumIn] at h
    | obj fs => simp [decodeNumIn] at h

theorem decodeOutput_valid {j : Json} {d : HealthAnalysisOutput}
    (h : decodeOutput j = some d) : validOutputB d = true := by
  unfold decodeOutput at h
  cases h1 : decodeReqString j "summary" with
  | none => simp only [h1] at h; exact Option.noConfusion h
  | some summary =>
    simp only [h1] at h
    cases h2 : decodeOptString j "detectedRegion" with
    | none => simp only [h2] at h; exact Option.noConfusion h
    | some detectedRegion =>
      simp only [h2] at h
      cases h3 : decodeIngredientListField j with
      | none => simp only [h3] at h; exact Option.noConfusion h
      | some ingredientAnalysis =>
        simp only [h3] at h
        cases h4 : decodeReqString j "packagingAnalysis" with
        | none => simp only [h4] at h; exact Option.noConfusion h
        | some packagingAnalysis =>
          simp only [h4] at h
          cases h5 : decodeReqString j "preservativesAndAdditivesAnalysis" with
          | none => simp only [h5] at h; exact Option.noConfusion h
          | some preservativesAndAdditivesAnalysis =>
            simp only [h5] at h
            cases h6 : decodeReqString j "breakdown" with
            | none => simp only [h6] at h; exact Option.noConfusion h
            | some breakdown =>
              simp only [h6] at h
              cases h7 : decodeReqString j "regulatoryStatus" with
              | none => simp only [h7] at h; exact Option.noConfusion h
              | some regulatoryStatus =>
                simp only [h7] at h
                cases h8 : decodeVariationsField j with
                | none => simp only [h8] at h; exact Option.noConfusion h
                | some regionalVariations =>
                  simp only [h8] at h
                  cases h9 : decodeOptString j "overallWarning" with
                  | none => simp only [h9] at h; exact Option.noConfusion h
                  | some overallWarning =>
                    simp only [h9] at h
                    cases h10 : decodeConfidenceField j with
                    | none => simp only [h10] at h; exact Option.noConfusion h
                    | some confidenceScore =>
                      simp only [h10] at h
                      cases h11 : decodeReqStrArray j "sources" with
                      | none => simp only [h11] at h; exact Option.noConfusion h
                      | some sources =>
                        simp only [h11] at h
                        cases h12 : decodeRiskField j with
                        | none => simp only [h12] at h; exact Option.noConfusion h
                        | some overallRiskScore =>
                          simp only [h12] at h
                          cases h13 : decodeOptString j "overallRiskLevel" with
                          | none => simp only [h13] at h; exact Option.noConfusion h
                          | some overallRiskLevel =>
                            simp only [h13] at h
                            cases h14 : decodeOptStrArray j "healthierAlternatives" with
                            | none => simp only [h14] at h; exact Option.noConfusion h
                            | some healthierAlternatives =>
                              simp only [h14] at h
                              cases h15 : decodeOptString j "corporatePracticesNote" with
                              | none => simp only [h15] at h; exact Option.noConfusion h
                              | some corporatePracticesNote =>
                                simp only [h15] at h
                                cases h16 : decodeOptString j "consumerRightsTip" with
                                | none => simp only [h16] at h; exact Option.noConfusion h
                                | some consumerRightsTip =>
                                  simp only [h16] at h
                                  cases h17 : decodeNutriField j with
                                  | none => simp only [h17] at h; exact Option.noConfusion h
                                  | some estimatedNutriScore =>
                                    simp only [h17] at h
                                    obtain rfl := Option.some.inj h
                                    have hc := decodeConfidenceField_ok h10
                                    have hr := decodeRiskField_ok h12
                                    simp only [validOutputB]
                                    rw [Bool.and_eq_true]
                                    exact ⟨hc, hr⟩

theorem validOutputB_of_scores {a b : HealthAnalysisOutput}
    (hc : a.confidenceScore = b.confidenceScore)
    (hr : a.overallRiskScore = b.overallRiskScore)
    (hb : validOutputB b = true) : validOutputB a = true := by
  simpa [validOutputB, hc, hr] using hb

theorem finalizeFirstOutput_scores (input : HealthAnalysisInput) (s : String)
    (output : HealthAnalysisOutput) :
    (finalizeFirstOutput input s output).confidenceScore = output.confidenceScore ∧
      (finalizeFirstOutput input s output).overallRiskScore = output.overallRiskScore := by
  simp only [finalizeFirstOutput]
  split <;> split <;> simp

theorem degradedOutput_scores (input : HealthAnalysisInput) (s : String)
    (output : HealthAnalysisOutput) (hv : validOutputB output = true) :
    validOutputB (degradedOutput input s output) = true := by
  simp only [validOutputB, degradedOutput, Bool.and_eq_true, decide_eq_true_eq] at hv ⊢
  refine ⟨⟨?_, ?_⟩, hv.2⟩
  · split
    · exact le_refl 0
    · exact hv.1.1
  · split
    · norm_num
    · exact hv.1.2

theorem runOllama_ok_valid {env : FlowEnv} {input : HealthAnalysisInput}
    {o : HealthAnalysisOutput} {calls : List BackendCall}
    (h : runOllama env input = (.ok o, calls)) : validOutputB o = true := by
  simp only [runOllama] at h
  cases hresp : env.ollamaBackend (ollamaRequestOf input) with
  | netThrow msg => simp [hresp] at h
  | httpError status body => simp [hresp] at h
  | ok body =>
    simp only [hresp] at h
    cases hex : extractOllamaOutput env.jsonParse body with
    | error msg => simp [hex] at h
    | ok outputJson =>
      simp only [hex] at h
      cases hdec : decodeOutput outputJson with
      | none => simp [hdec] at h
      | some data =>
        simp only [hdec, Prod.mk.injEq, Except.ok.injEq] at h
        obtain ⟨rfl, -⟩ := h
        have hv := decodeOutput_valid hdec
        simp only [validOutputB, Bool.and_eq_true, decide_eq_true_eq] at hv ⊢
        refine ⟨⟨?_, ?_⟩, hv.2⟩
        · split
          · exact hv.1.1
          · norm_num
        · split
          · exact hv.1.2
          · norm_num

theorem runCloud_ok_valid {env : FlowEnv} {input : HealthAnalysisInput}
    {modelIdentifier : String} {o : HealthAnalysisOutput} {calls : List BackendCall}
    (hgenkit : ∀ n pd m oo, env.cloudBackend n pd m = CloudResp.success (some oo) →
      validOutputB oo = true)
    (h : runCloud env input modelIdentifier = (.ok o, calls)) : validOutputB o = true := by
  simp only [runCloud] at h
  cases h0 : env.cloudBackend 0 (cloudPromptDataOf input) modelIdentifier with
  | throws msg => simp [h0] at h
  | success out0 =>
    cases out0 with
    | none =>
      cases h1 : env.cloudBackend 1 (cloudPromptDataOf input) modelIdentifier with
      | throws m => simp [h0, h1] at h
      | success out1 =>
        cases out1 with
        | none => simp [h0, h1] at h
        | some retry =>
          simp only [h0, h1, Prod.mk.injEq, Except.ok.injEq] at h
          obtain ⟨rfl, -⟩ := h
          exact hgenkit 1 _ _ _ h1
    | some output =>
      simp only [h0] at h
      by_cases hcf : completenessFails output = true
      · rw [if_pos hcf] at h
        cases h1 : env.cloudBackend 1 (cloudPromptDataOf input) modelIdentifier with
        | throws m => simp [h1] at h
        | success out1 =>
          cases out1 with
          | none =>
            simp only [h1, Prod.mk.injEq, Except.ok.injEq] at h
            obtain ⟨rfl, -⟩ := h
            exact degradedOutput_scores _ _ _ (hgenkit 0 _ _ _ h0)
          | some retry =>
            simp only [h1] at h
            by_cases hcr : completenessFails retry = true
            · rw [if_pos hcr] at h
              simp only [Prod.mk.injEq, Except.ok.injEq] at h
              obtain ⟨rfl, -⟩ := h
              exact degradedOutput_scores _ _ _ (hgenkit 0 _ _ _ h0)
            · rw [if_neg hcr] at h
              simp only [Prod.mk.injEq, Except.ok.injEq] at h
              obtain ⟨rfl, -⟩ := h
              exact hgenkit 1 _ _ _ h1
      · rw [if_neg hcf] at h
        simp only [Prod.mk.injEq, Except.ok.injEq] at h
        obtain ⟨rfl, -⟩ := h
        obtain ⟨hc, hr⟩ :=
          finalizeFirstOutput_scores input (cloudServiceNameOf input modelIdentifier) output
        exact validOutputB_of_scores hc hr (hgenkit 0 _ _ _ h0)

theorem flowBody_ok_valid {env : FlowEnv} {input : HealthAnalysisInput}
    {o : HealthAnalysisOutput} {calls : List BackendCall}
    (hgenkit : ∀ n pd m oo, env.cloudBackend n pd m = CloudResp.success (some oo) →
      validOutputB oo = true)
    (h : flowBody env input = (.ok o, calls)) : validOutputB o = true := by
  unfold flowBody at h
  split at h
  · exact runOllama_ok_valid h
  · split at h
    · exact runCloud_ok_valid hgenkit h
    · simp at h


/-! ## Small string facts used by the claim theorems -/

theorem strNeEmpty_left (a b : String) (ha : a.data ≠ []) : a ++ b ≠ "" := by
  intro h
  have hd := congrArg String.data h
  rw [String.data_append] at hd
  rw [show ("" : String).data = [] from rfl] at hd
  exact ha (List.append_eq_nil.mp hd).1

theorem occursIn_append_right (pat : List Char) :
    ∀ (a : List Char) {b : List Char}, occursIn pat b = true → occursIn pat (a ++ b) = true
  | [], _, h => by simpa using h
  | x :: rest, b, h => by
    simp only [List.cons_append, occursIn, Bool.or_eq_true]
    exact Or.inr (occursIn_append_right pat rest h)

theorem occursIn_of_head (pat t₁ t₂ : List Char) : occursIn pat ((pat ++ t₁) ++ t₂) = true := by
  rw [List.append_assoc]
  exact occursIn_append_self pat (t₁ ++ t₂)

/-! ## Flow-reduction helpers shared by the claim proofs -/

theorem cloudModelOf_ollama : cloudModelOf "ollama" = none := by decide

theorem flowBody_cloud {input : HealthAnalysisInput} {m : String} (env : FlowEnv)
    (hm : cloudModelOf input.aiServiceProvider = some m) :
    flowBody env input = runCloud env input m := by
  have hne : ¬ input.aiServiceProvider = "ollama" := by
    intro he
    rw [he, cloudModelOf_ollama] at hm
    exact Option.noConfusion hm
  unfold flowBody
  rw [if_neg hne, hm]

theorem flow_of_ok {env : FlowEnv} {input : HealthAnalysisInput}
    {o : HealthAnalysisOutput} {calls : List BackendCall}
    (h : flowBody env input = (Except.ok o, calls)) :
    generateHealthAnalysisFlow env input = (o, calls) := by
  simp only [generateHealthAnalysisFlow, h]

theorem flow_of_error {env : FlowEnv} {input : HealthAnalysisInput}
    {msg : String} {calls : List BackendCall}
    (h : flowBody env input = (Except.error msg, calls)) :
    generateHealthAnalysisFlow env input = (errorFallbackOutput input msg, calls) := by
  simp only [generateHealthAnalysisFlow, h]

theorem finalizeFirstOutput_sources (input : HealthAnalysisInput) (s : String)
    (output : HealthAnalysisOutput) :
    (finalizeFirstOutput input s output).sources =
      (if output.sources.isEmpty then [s] else output.sources) := by
  simp only [finalizeFirstOutput]
  split <;> split <;> simp_all

theorem finalizeFirstOutput_tip (input : HealthAnalysisInput) (s : String)
    (output : HealthAnalysisOutput) :
    (finalizeFirstOutput input s output).consumerRightsTip =
      (if tipMissingB output.consumerRightsTip && regionIndiaB input output then
        some fssaiDefaultTip else output.consumerRightsTip) := by
  simp only [finalizeFirstOutput]
  split <;> split <;> simp_all

theorem cloudModelOf_mem {p m : String} (h : cloudModelOf p = some m) :
    p ∈ validProviders := by
  unfold cloudModelOf at h
  split at h <;> simp_all [validProviders]

theorem flow_snd (env : FlowEnv) (input : HealthAnalysisInput) :
    (generateHealthAnalysisFlow env input).2 = (flowBody env input).2 := by
  cases hfb : flowBody env input with
  | mk res calls => cases res <;> simp [generateHealthAnalysisFlow, hfb]

/-- The hosted branch performs either one or two backend calls, always with
the selected model identifier. -/
theorem runCloud_calls_cases (env : FlowEnv) (input : HealthAnalysisInput) (m : String) :
    (runCloud env input m).2 = [BackendCall.cloudCall 0 (cloudPromptDataOf input) m] ∨
    (runCloud env input m).2 =
      [BackendCall.cloudCall 0 (cloudPromptDataOf input) m,
       BackendCall.cloudCall 1 (cloudPromptDataOf input) m] := by
  simp only [runCloud]
  repeat' first
    | exact Or.inl rfl
    | exact Or.inr rfl
    | split

/-! ## Sample inputs, outputs and oracle environments used by witnesses and
counterexamples -/

def sampleIngredient : IngredientDetail :=
  ⟨"Sugar", "Sweetener", "Raises blood sugar", "High Sugar Content", none, none, none⟩

def inputGemini : HealthAnalysisInput :=
  ⟨"Maggi Noodles", none, "gemini", none⟩

def inputOllama : HealthAnalysisInput :=
  ⟨"Maggi Noodles", none, "ollama", none⟩

def inputOllamaEmptyName : HealthAnalysisInput :=
  ⟨"Maggi Noodles", none, "ollama", some ""⟩

/-- Every backend call fails (cloud throws, local network error). -/
def oracleThrows : FlowEnv :=
  ⟨fun _ _ _ => .throws "network down", fun _ => .netThrow "network down", fun _ => none⟩

/-- The hosted backend always returns an empty output. -/
def oracleCloudEmpty : FlowEnv :=
  ⟨fun _ _ _ => .success none, fun _ => .netThrow "unused", fun _ => none⟩

/-- A schema-valid but incomplete local output: empty ingredient list. -/
def incompleteOutputJson : Json :=
  Json.obj [
    ("summary", Json.str "A summary"),
    ("ingredientAnalysis", Json.arr []),
    ("packagingAnalysis", Json.str "pack"),
    ("preservativesAndAdditivesAnalysis", Json.str "pres"),
    ("breakdown", Json.str "break"),
    ("regulatoryStatus", Json.str "reg"),
    ("confidenceScore", Json.num 50),
    ("sources", Json.arr [Json.str "src"])]

/-- The local backend always answers with the incomplete output above, in the
object-in-`response` envelope shape. -/
def oracleOllamaIncomplete : FlowEnv :=
  ⟨fun _ _ _ => .throws "unused",
   fun _ => .ok (Json.obj [("response", incompleteOutputJson)]),
   fun _ => none⟩

/-- A complete, schema-valid hosted output carrying `confidenceScore = 0`. -/
def zeroConfOutput : HealthAnalysisOutput :=
  { summary := "ok summary", detectedRegion := none,
    ingredientAnalysis := [sampleIngredient],
    packagingAnalysis := "pack", preservativesAndAdditivesAnalysis := "pres",
    breakdown := "break", regulatoryStatus := "reg",
    regionalVariations := none, overallWarning := none,
    confidenceScore := 0, sources := ["some db"],
    overallRiskScore := none, overallRiskLevel := none,
    healthierAlternatives := none, corporatePracticesNote := none,
    consumerRightsTip := some "a tip", estimatedNutriScore := none }

def oracleCloudZeroConf : FlowEnv :=
  ⟨fun _ _ _ => .success (some zeroConfOutput), fun _ => .netThrow "unused", fun _ => none⟩

/-! ## C1 -/

/-- C1: for every valid analysis request (any `productInfo`, any optional
region hint, any of the four provider ids, any optional local model name) and
any backend behaviour, `generateHealthAnalysisFlow` returns — it is a total
function of this model, so it never rejects or throws — a result satisfying
the output schema\'s constraints: every internally raised exception is
converted into a structurally valid result before returning.  The `hgenkit`
hypothesis is the genkit guarantee that a hosted backend\'s non-empty output
has already been validated against the output schema. -/
theorem C1_always_schema_valid_result (env : FlowEnv) (input : HealthAnalysisInput)
    (hprov : input.aiServiceProvider ∈ validProviders)
    (hgenkit : ∀ n pd m o, env.cloudBackend n pd m = CloudResp.success (some o) →
      validOutputB o = true) :
    validOutputB (generateHealthAnalysisFlow env input).1 = true := by
  cases hfb : flowBody env input with
  | mk res calls =>
    cases res with
    | error msg =>
      simp only [generateHealthAnalysisFlow, hfb]
      exact validOutputB_errorFallback input msg
    | ok o =>
      simp only [generateHealthAnalysisFlow, hfb]
      exact flowBody_ok_valid hgenkit hfb

theorem C1_witness :
    validOutputB (generateHealthAnalysisFlow oracleThrows inputGemini).1 = true :=
  C1_always_schema_valid_result oracleThrows inputGemini (by decide)
    (fun n pd m o h => by cases h)

/-! ## C2 -/

/-- A backend answer that is empty or incomplete (never throwing). -/
def incompleteRespB : CloudResp → Bool
  | .throws _ => false
  | .success none => true
  | .success (some o) => completenessFails o

theorem runOllama_calls (env : FlowEnv) (input : HealthAnalysisInput) :
    (runOllama env input).2 = [BackendCall.ollamaCall (ollamaRequestOf input)] := by
  simp only [runOllama]
  split
  · rfl
  · rfl
  · split
    · rfl
    · split
      · rfl
      · rfl

theorem runCloud_calls_two {env : FlowEnv} {input : HealthAnalysisInput}
    {modelIdentifier : String}
    (hinc : ∀ n pd m, incompleteRespB (env.cloudBackend n pd m) = true) :
    (runCloud env input modelIdentifier).2.length = 2 := by
  simp only [runCloud]
  split
  · rename_i msg h0
    have hx := hinc 0 (cloudPromptDataOf input) modelIdentifier
    rw [h0] at hx
    simp [incompleteRespB] at hx
  · split
    · rfl
    · rfl
    · rfl
  · rename_i output h0
    have hx := hinc 0 (cloudPromptDataOf input) modelIdentifier
    rw [h0] at hx
    simp only [incompleteRespB] at hx
    rw [if_pos hx]
    split
    · rfl
    · split
      · rfl
      · rfl
    · rfl

/-- C2 counterexample: the claim quantifies over every provider id, but for
the `ollama` provider there is no retry at all: a backend that always returns
a schema-valid yet incomplete output (empty ingredient list) is invoked
exactly once, not twice. -/
theorem C2_counterexample :
    (generateHealthAnalysisFlow oracleOllamaIncomplete inputOllama).2.length = 1 ∧
      (1 : Nat) ≠ 2 := by
  constructor
  · decide
  · decide

/-- C2 amended: for the three hosted providers a backend that always returns
empty or incomplete output is invoked exactly twice (the initial attempt plus
exactly one retry, never a third); the local provider performs no retry — its
backend is always invoked exactly once per request. -/
theorem C2_amended_retry_bound (env : FlowEnv) (input : HealthAnalysisInput) :
    (input.aiServiceProvider ∈ ["gemini", "openai", "anthropic"] →
      (∀ n pd m, incompleteRespB (env.cloudBackend n pd m) = true) →
      (generateHealthAnalysisFlow env input).2.length = 2) ∧
    (input.aiServiceProvider = "ollama" →
      (generateHealthAnalysisFlow env input).2.length = 1) := by
  have hlog : ∀ r : Except String HealthAnalysisOutput × List BackendCall,
      (match r with
       | (.ok output, calls) => (output, calls)
       | (.error msg, calls) => (errorFallbackOutput input msg, calls)).2 = r.2 := by
    rintro ⟨res, calls⟩
    cases res <;> rfl
  constructor
  · intro hmem hinc
    simp only [List.mem_cons, List.not_mem_nil, or_false] at hmem
    have hne : ¬ (input.aiServiceProvider = "ollama") := by
      rcases hmem with h | h | h <;> rw [h] <;> decide
    have hcm : ∃ m, cloudModelOf input.aiServiceProvider = some m := by
      rcases hmem with h | h | h <;> rw [h] <;> exact ⟨_, rfl⟩
    obtain ⟨m, hm⟩ := hcm
    unfold generateHealthAnalysisFlow
    rw [hlog]
    unfold flowBody
    rw [if_neg hne, hm]
    exact runCloud_calls_two hinc
  · intro hollama
    unfold generateHealthAnalysisFlow
    rw [hlog]
    unfold flowBody
    rw [if_pos hollama, runOllama_calls]
    rfl

theorem C2_witness :
    (generateHealthAnalysisFlow oracleCloudEmpty inputGemini).2.length = 2 :=
  (C2_amended_retry_bound oracleCloudEmpty inputGemini).1 (by decide) (fun n pd m => rfl)

/-! ## C9 -/

/-- C9: whenever the backend interaction throws internally — for the local
backend a network failure, a non-2xx status, a JSON parse failure or a
schema-validation failure, for a hosted backend a thrown call — i.e. whenever
the flow body produced an internal exception, the returned analysis result is
the error fallback: `confidenceScore = 0`, a non-empty summary carrying the
"AI service error" indicator (which embeds the failure message), an empty
ingredient list, and all other required text fields populated. -/
theorem errorFallback_summary_data (input : HealthAnalysisInput) (msg : String) :
    (errorFallbackOutput input msg).summary.data =
      ("AI service error" : String).data ++
        ((" (" : String).data ++ ((serviceDetailOf input).data ++ (("): " : String).data ++
          (if msg = "" then ("Unknown error during health analysis." : String)
           else msg).data))) := by
  simp only [errorFallbackOutput, String.data_append, List.append_assoc]
  simp

theorem C9_error_result_shape (env : FlowEnv) (input : HealthAnalysisInput) (msg : String)
    (h : (flowBody env input).1 = .error msg) :
    (generateHealthAnalysisFlow env input).1 = errorFallbackOutput input msg ∧
    (errorFallbackOutput input msg).confidenceScore = 0 ∧
    (errorFallbackOutput input msg).ingredientAnalysis = [] ∧
    (errorFallbackOutput input msg).summary ≠ "" ∧
    strContains (errorFallbackOutput input msg).summary "AI service error" = true ∧
    (errorFallbackOutput input msg).packagingAnalysis ≠ "" ∧
    (errorFallbackOutput input msg).preservativesAndAdditivesAnalysis ≠ "" ∧
    (errorFallbackOutput input msg).breakdown ≠ "" ∧
    (errorFallbackOutput input msg).regulatoryStatus ≠ "" ∧
    (errorFallbackOutput input msg).sources ≠ [] := by
  refine ⟨?_, rfl, rfl, ?_, ?_, by simp [errorFallbackOutput], by simp [errorFallbackOutput],
    by simp [errorFallbackOutput], by simp [errorFallbackOutput], by simp [errorFallbackOutput]⟩
  · cases hfb : flowBody env input with
    | mk res calls =>
      rw [hfb] at h
      simp only at h
      subst h
      simp [generateHealthAnalysisFlow, hfb]
  · intro he
    have hdata : (errorFallbackOutput input msg).summary.data = [] := by
      rw [he]
    rw [errorFallback_summary_data] at hdata
    exact absurd (List.append_eq_nil.mp hdata).1 (by decide)
  · unfold strContains
    rw [errorFallback_summary_data]
    exact occursIn_append_self _ _

theorem C9_witness :
    (generateHealthAnalysisFlow oracleThrows inputOllama).1 =
      errorFallbackOutput inputOllama "network down" ∧
    (errorFallbackOutput inputOllama "network down").confidenceScore = 0 ∧
    (errorFallbackOutput inputOllama "network down").ingredientAnalysis = [] ∧
    (errorFallbackOutput inputOllama "network down").summary ≠ "" ∧
    strContains (errorFallbackOutput inputOllama "network down").summary
      "AI service error" = true ∧
    (errorFallbackOutput inputOllama "network down").packagingAnalysis ≠ "" ∧
    (errorFallbackOutput inputOllama "network down").preservativesAndAdditivesAnalysis ≠ "" ∧
    (errorFallbackOutput inputOllama "network down").breakdown ≠ "" ∧
    (errorFallbackOutput inputOllama "network down").regulatoryStatus ≠ "" ∧
    (errorFallbackOutput inputOllama "network down").sources ≠ [] :=
  C9_error_result_shape oracleThrows inputOllama "network down" rfl

/-! ## C5 -/

theorem runOllama_ok_pos {env : FlowEnv} {input : HealthAnalysisInput}
    {o : HealthAnalysisOutput} {calls : List BackendCall}
    (h : runOllama env input = (.ok o, calls)) : 0 < o.confidenceScore := by
  simp only [runOllama] at h
  cases hresp : env.ollamaBackend (ollamaRequestOf input) with
  | netThrow msg => simp [hresp] at h
  | httpError status body => simp [hresp] at h
  | ok body =>
    simp only [hresp] at h
    cases hex : extractOllamaOutput env.jsonParse body with
    | error msg => simp [hex] at h
    | ok outputJson =>
      simp only [hex] at h
      cases hdec : decodeOutput outputJson with
      | none => simp [hdec] at h
      | some data =>
        simp only [hdec, Prod.mk.injEq, Except.ok.injEq] at h
        obtain ⟨rfl, -⟩ := h
        simp only
        split
        · rename_i hgt
          exact hgt
        · norm_num

/-- C5 counterexample: a hosted (gemini) backend may return a complete,
schema-valid output with `confidenceScore = 0`; it is returned as the
successful analysis with a non-empty ingredient list, so `confidenceScore = 0`
does not imply empty ingredients, and a genuine success can carry exactly 0. -/
theorem C5_counterexample :
    (generateHealthAnalysisFlow oracleCloudZeroConf inputGemini).1.confidenceScore = 0 ∧
    (generateHealthAnalysisFlow oracleCloudZeroConf inputGemini).1.ingredientAnalysis ≠ [] := by
  constructor
  · decide
  · decide

/-- C5 amended: the failure sentinel is reliable for the local (ollama)
provider only: there, a returned result with `confidenceScore = 0` always has
an empty ingredient list (it is the error fallback), and a genuine ollama
success never carries confidence 0 (zero is coerced to the policy default
60).  For hosted providers the sentinel does not hold (see the
counterexample). -/
theorem C5_amended_ollama_sentinel (env : FlowEnv) (input : HealthAnalysisInput)
    (h : input.aiServiceProvider = "ollama") :
    ((generateHealthAnalysisFlow env input).1.confidenceScore = 0 →
      (generateHealthAnalysisFlow env input).1.ingredientAnalysis = []) ∧
    (∀ o calls, flowBody env input = (Except.ok o, calls) → 0 < o.confidenceScore) := by
  have hbody : ∀ o calls, flowBody env input = (Except.ok o, calls) → 0 < o.confidenceScore := by
    intro o calls hfb
    unfold flowBody at hfb
    rw [if_pos h] at hfb
    exact runOllama_ok_pos hfb
  refine ⟨?_, hbody⟩
  cases hfb : flowBody env input with
  | mk res calls =>
    cases res with
    | error msg =>
      simp only [generateHealthAnalysisFlow, hfb]
      intro _
      rfl
    | ok o =>
      simp only [generateHealthAnalysisFlow, hfb]
      intro hzero
      exact absurd hzero (ne_of_gt (hbody o calls hfb))

theorem C5_witness :
    ((generateHealthAnalysisFlow oracleThrows inputOllama).1.confidenceScore = 0 →
      (generateHealthAnalysisFlow oracleThrows inputOllama).1.ingredientAnalysis = []) ∧
    (∀ o calls, flowBody oracleThrows inputOllama = (Except.ok o, calls) →
      0 < o.confidenceScore) :=
  C5_amended_ollama_sentinel oracleThrows inputOllama rfl

/-! ## C3 -/

/-- A schema-valid but incomplete retry output: empty summary string. -/
def incompleteRetryOutput : HealthAnalysisOutput :=
  { summary := "", detectedRegion := none,
    ingredientAnalysis := [sampleIngredient],
    packagingAnalysis := "retry pack", preservativesAndAdditivesAnalysis := "retry pres",
    breakdown := "retry break", regulatoryStatus := "retry reg",
    regionalVariations := none, overallWarning := none,
    confidenceScore := 42, sources := ["retry src"],
    overallRiskScore := none, overallRiskLevel := none,
    healthierAlternatives := none, corporatePracticesNote := none,
    consumerRightsTip := none, estimatedNutriScore := none }

/-- Hosted backend: empty output on the first attempt, the incomplete output
above on the retry. -/
def oracleCloudEmptyThenIncomplete : FlowEnv :=
  ⟨fun n _ _ => if n = 0 then .success none else .success (some incompleteRetryOutput),
   fun _ => .netThrow "unused", fun _ => none⟩

/-- C3 counterexample: the claim says a result is returned as success only
after the completeness check (non-empty summary and ingredient list) passes on
it.  But when the first attempt returns an empty output and the retry returns
a non-empty one, the retry output is returned as success without any
completeness check: here the flow returns an output whose summary is empty,
i.e. one failing the completeness check. -/
theorem C3_counterexample :
    (generateHealthAnalysisFlow oracleCloudEmptyThenIncomplete inputGemini).1 =
      incompleteRetryOutput ∧
    completenessFails incompleteRetryOutput = true := by
  constructor
  · rfl
  · decide

/-- C3 corrected: for a hosted provider, (a) a complete first output is
finalized and returned after one call; (b) when the first output is present
but incomplete and the retry yields an output, the retry output is
completeness-checked: if it fails, the degraded partial built from the FIRST
output is returned, else the retry output; (c) but when the first attempt
yields an EMPTY output, a successful retry output is returned as-is, with no
completeness check. -/
theorem C3_amended_completeness_gating (env : FlowEnv) (input : HealthAnalysisInput)
    (m : String) (hm : cloudModelOf input.aiServiceProvider = some m) :
    (∀ o, env.cloudBackend 0 (cloudPromptDataOf input) m = CloudResp.success (some o) →
      completenessFails o = false →
      flowBody env input =
        (Except.ok (finalizeFirstOutput input (cloudServiceNameOf input m) o),
         [BackendCall.cloudCall 0 (cloudPromptDataOf input) m])) ∧
    (∀ o r, env.cloudBackend 0 (cloudPromptDataOf input) m = CloudResp.success (some o) →
      completenessFails o = true →
      env.cloudBackend 1 (cloudPromptDataOf input) m = CloudResp.success (some r) →
      flowBody env input =
        (Except.ok (if completenessFails r then
            degradedOutput input (cloudServiceNameOf input m) o
          else r),
         [BackendCall.cloudCall 0 (cloudPromptDataOf input) m,
          BackendCall.cloudCall 1 (cloudPromptDataOf input) m])) ∧
    (∀ r, env.cloudBackend 0 (cloudPromptDataOf input) m = CloudResp.success none →
      env.cloudBackend 1 (cloudPromptDataOf input) m = CloudResp.success (some r) →
      flowBody env input =
        (Except.ok r,
         [BackendCall.cloudCall 0 (cloudPromptDataOf input) m,
          BackendCall.cloudCall 1 (cloudPromptDataOf input) m])) := by
  refine ⟨?_, ?_, ?_⟩
  · intro o h0 hc
    rw [flowBody_cloud env hm]
    simp only [runCloud, h0]
    rw [if_neg (by simp [hc])]
  · intro o r h0 hc h1
    rw [flowBody_cloud env hm]
    simp only [runCloud, h0, h1]
    rw [if_pos hc]
    by_cases hr : completenessFails r = true
    · rw [if_pos hr, if_pos hr]
    · rw [if_neg hr, if_neg hr]
  · intro r h0 h1
    rw [flowBody_cloud env hm]
    simp only [runCloud, h0, h1]

theorem C3_witness :
    flowBody oracleCloudEmptyThenIncomplete inputGemini =
      (Except.ok incompleteRetryOutput,
       [BackendCall.cloudCall 0 (cloudPromptDataOf inputGemini) "googleai/gemini-2.0-flash",
        BackendCall.cloudCall 1 (cloudPromptDataOf inputGemini) "googleai/gemini-2.0-flash"]) :=
  (C3_amended_completeness_gating oracleCloudEmptyThenIncomplete inputGemini
    "googleai/gemini-2.0-flash" rfl).2.2 incompleteRetryOutput rfl rfl

/-! ## C4 -/

/-- C4 counterexample: the claim says every successful result has its
confidence score coerced to 60 when the model reported a falsy value (0).
But for a hosted provider whose complete first output carries confidence 0,
the flow returns that output with confidence 0, not 60. -/
theorem C4_counterexample :
    (generateHealthAnalysisFlow oracleCloudZeroConf inputGemini).1.confidenceScore = 0 ∧
    ((generateHealthAnalysisFlow oracleCloudZeroConf inputGemini).1.confidenceScore = 60 →
      False) := by
  constructor
  · decide
  · decide

/-- C4 corrected: the zero-to-60 confidence coercion happens only on the
ollama success path (which also defaults empty sources to the Ollama service
name); a hosted first-attempt success keeps its confidence score unchanged
and only defaults empty sources; and a hosted retry-after-empty success is
returned verbatim with neither normalization. -/
theorem C4_amended_normalization (env : FlowEnv) (input : HealthAnalysisInput) :
    (∀ body outputJson data, input.aiServiceProvider = "ollama" →
      env.ollamaBackend (ollamaRequestOf input) = OllamaResp.ok body →
      extractOllamaOutput env.jsonParse body = Except.ok outputJson →
      decodeOutput outputJson = some data →
      (generateHealthAnalysisFlow env input).1 =
        { data with
          confidenceScore := if data.confidenceScore > 0 then data.confidenceScore else 60
          sources := if data.sources.length > 0 then data.sources
                     else [ollamaServiceNameOf input] }) ∧
    (∀ m o, cloudModelOf input.aiServiceProvider = some m →
      env.cloudBackend 0 (cloudPromptDataOf input) m = CloudResp.success (some o) →
      completenessFails o = false →
      (generateHealthAnalysisFlow env input).1 =
          finalizeFirstOutput input (cloudServiceNameOf input m) o ∧
        (finalizeFirstOutput input (cloudServiceNameOf input m) o).confidenceScore =
          o.confidenceScore ∧
        (finalizeFirstOutput input (cloudServiceNameOf input m) o).sources =
          (if o.sources.isEmpty then [cloudServiceNameOf input m] else o.sources)) ∧
    (∀ m r, cloudModelOf input.aiServiceProvider = some m →
      env.cloudBackend 0 (cloudPromptDataOf input) m = CloudResp.success none →
      env.cloudBackend 1 (cloudPromptDataOf input) m = CloudResp.success (some r) →
      (generateHealthAnalysisFlow env input).1 = r) := by
  refine ⟨?_, ?_, ?_⟩
  · intro body outputJson data hp hresp hex hdec
    have hfb : flowBody env input =
        (Except.ok { data with
          confidenceScore := if data.confidenceScore > 0 then data.confidenceScore else 60
          sources := if data.sources.length > 0 then data.sources
                     else [ollamaServiceNameOf input] },
         [BackendCall.ollamaCall (ollamaRequestOf input)]) := by
      unfold flowBody
      rw [if_pos hp]
      simp only [runOllama, hresp, hex, hdec]
    rw [flow_of_ok hfb]
  · intro m o hm h0 hc
    refine ⟨?_, (finalizeFirstOutput_scores input (cloudServiceNameOf input m) o).1,
      finalizeFirstOutput_sources input (cloudServiceNameOf input m) o⟩
    have hfb : flowBody env input =
        (Except.ok (finalizeFirstOutput input (cloudServiceNameOf input m) o),
         [BackendCall.cloudCall 0 (cloudPromptDataOf input) m]) := by
      rw [flowBody_cloud env hm]
      simp only [runCloud, h0]
      rw [if_neg (by simp [hc])]
    rw [flow_of_ok hfb]
  · intro m r hm h0 h1
    have hfb : flowBody env input =
        (Except.ok r,
         [BackendCall.cloudCall 0 (cloudPromptDataOf input) m,
          BackendCall.cloudCall 1 (cloudPromptDataOf input) m]) := by
      rw [flowBody_cloud env hm]
      simp only [runCloud, h0, h1]
    rw [flow_of_ok hfb]

theorem C4_witness :
    (generateHealthAnalysisFlow oracleCloudZeroConf inputGemini).1 =
      finalizeFirstOutput inputGemini
        (cloudServiceNameOf inputGemini "googleai/gemini-2.0-flash") zeroConfOutput ∧
    (finalizeFirstOutput inputGemini
        (cloudServiceNameOf inputGemini "googleai/gemini-2.0-flash")
        zeroConfOutput).confidenceScore = zeroConfOutput.confidenceScore := by
  have h := (C4_amended_normalization oracleCloudZeroConf inputGemini).2.1
    "googleai/gemini-2.0-flash" zeroConfOutput rfl rfl (by decide)
  exact ⟨h.1, h.2.1⟩

/-! ## C7 -/

/-- C7 counterexample: the claim says the `ollama` provider uses the supplied
`ollamaModelName` whenever it is present.  But the source computes
`ollamaModelName || 'qwen3:8b'` with JS `||`, so a present-but-empty model
name is discarded and the default is used: here the request carries
`ollamaModelName = some ""` yet the backend is called with model `qwen3:8b`. -/
theorem C7_counterexample :
    inputOllamaEmptyName.ollamaModelName = some "" ∧
    (ollamaRequestOf inputOllamaEmptyName).model = "qwen3:8b" ∧
    ((ollamaRequestOf inputOllamaEmptyName).model = "" → False) ∧
    (generateHealthAnalysisFlow oracleThrows inputOllamaEmptyName).2.map callModel =
      ["qwen3:8b"] := by
  refine ⟨rfl, rfl, by decide, rfl⟩

/-- C7 corrected: the provider id selects exactly one backend and model:
`ollama` performs exactly one local call whose model is the supplied
`ollamaModelName` when that is present AND non-empty, and the default
`qwen3:8b` when it is absent OR empty (JS `||`); each hosted id maps to its
fixed model identifier, and every backend call of a hosted run is a hosted
call carrying exactly that identifier; an unsupported provider id yields no
backend call at all and a result whose summary reports the unsupported
provider. -/
theorem C7_amended_routing (env : FlowEnv) (input : HealthAnalysisInput) :
    (input.aiServiceProvider = "ollama" →
      (generateHealthAnalysisFlow env input).2 =
        [BackendCall.ollamaCall (ollamaRequestOf input)] ∧
      (∀ n, input.ollamaModelName = some n → ¬ n = "" →
        (ollamaRequestOf input).model = n) ∧
      (input.ollamaModelName = none ∨ input.ollamaModelName = some "" →
        (ollamaRequestOf input).model = ollamaDefaultModel)) ∧
    (∀ m, cloudModelOf input.aiServiceProvider = some m →
      ((input.aiServiceProvider = "gemini" → m = "googleai/gemini-2.0-flash") ∧
       (input.aiServiceProvider = "openai" → m = "openai/gpt-3.5-turbo") ∧
       (input.aiServiceProvider = "anthropic" → m = "anthropic/claude-3-haiku-20240307")) ∧
      ∀ c ∈ (generateHealthAnalysisFlow env input).2,
        isCloudCall c = true ∧ callModel c = m) ∧
    (input.aiServiceProvider ∉ validProviders →
      (generateHealthAnalysisFlow env input).2 = [] ∧
      strContains (generateHealthAnalysisFlow env input).1.summary
        "Unsupported AI service provider" = true) := by
  refine ⟨?_, ?_, ?_⟩
  · intro hp
    refine ⟨?_, ?_, ?_⟩
    · rw [flow_snd]
      unfold flowBody
      rw [if_pos hp]
      exact runOllama_calls env input
    · intro n hn hne
      simp [ollamaRequestOf, ollamaModelIdentifierOf, hn, hne]
    · rintro (hn | hn) <;> simp [ollamaRequestOf, ollamaModelIdentifierOf, hn]
  · intro m hm
    constructor
    · refine ⟨fun hg => ?_, fun hg => ?_, fun hg => ?_⟩ <;>
        (rw [hg] at hm; exact (Option.some.inj hm).symm)
    · intro c hc
      rw [flow_snd, flowBody_cloud env hm] at hc
      rcases runCloud_calls_cases env input m with h | h
      · rw [h] at hc
        simp only [List.mem_cons, List.not_mem_nil, or_false] at hc
        subst hc
        exact ⟨rfl, rfl⟩
      · rw [h] at hc
        simp only [List.mem_cons, List.not_mem_nil, or_false] at hc
        rcases hc with hc | hc <;> subst hc <;> exact ⟨rfl, rfl⟩
  · intro hns
    have hno : cloudModelOf input.aiServiceProvider = none := by
      cases hcm : cloudModelOf input.aiServiceProvider with
      | none => rfl
      | some m => exact absurd (cloudModelOf_mem hcm) hns
    have hne : ¬ input.aiServiceProvider = "ollama" := by
      intro he
      exact hns (he.symm ▸ (show ("ollama" : String) ∈ validProviders by decide))
    have hfb : flowBody env input =
        (Except.error ("Unsupported AI service provider: " ++ input.aiServiceProvider),
         []) := by
      unfold flowBody
      rw [if_neg hne, hno]
    constructor
    · rw [flow_snd, hfb]
    · rw [flow_of_error hfb]
      unfold strContains
      rw [errorFallback_summary_data]
      rw [if_neg (strNeEmpty_left "Unsupported AI service provider: "
        input.aiServiceProvider (by decide))]
      apply occursIn_append_right
      apply occursIn_append_right
      apply occursIn_append_right
      apply occursIn_append_right
      rw [String.data_append,
        show ("Unsupported AI service provider: " : String).data =
          ("Unsupported AI service provider" : String).data ++ (": " : String).data
          from by decide,
        List.append_assoc]
      exact occursIn_append_self _ _

theorem C7_witness :
    (generateHealthAnalysisFlow oracleCloudZeroConf ⟨"Maggi", none, "soup", none⟩).2 = [] ∧
    strContains
      (generateHealthAnalysisFlow oracleCloudZeroConf ⟨"Maggi", none, "soup", none⟩).1.summary
      "Unsupported AI service provider" = true :=
  (C7_amended_routing oracleCloudZeroConf ⟨"Maggi", none, "soup", none⟩).2.2 (by decide)

/-! ## C10 -/

/-- A complete hosted output whose tip is present but EMPTY and whose
detected region is India. -/
def emptyTipOutput : HealthAnalysisOutput :=
  { summary := "ok summary", detectedRegion := some "India",
    ingredientAnalysis := [sampleIngredient],
    packagingAnalysis := "pack", preservativesAndAdditivesAnalysis := "pres",
    breakdown := "break", regulatoryStatus := "reg",
    regionalVariations := none, overallWarning := none,
    confidenceScore := 70, sources := ["db"],
    overallRiskScore := none, overallRiskLevel := none,
    healthierAlternatives := none, corporatePracticesNote := none,
    consumerRightsTip := some "", estimatedNutriScore := none }

def oracleCloudEmptyTip : FlowEnv :=
  ⟨fun _ _ _ => .success (some emptyTipOutput), fun _ => .netThrow "unused", fun _ => none⟩

/-- C10 counterexample: the claim defaults the tip only when it is ABSENT and
says it is returned unchanged in all other cases.  But the source tests JS
truthiness (`!output.consumerRightsTip`), so a present-but-empty tip is also
replaced: here the output carries `consumerRightsTip = some ""` with region
India, and the flow returns the FSSAI default instead of the unchanged
empty tip. -/
theorem C10_counterexample :
    emptyTipOutput.consumerRightsTip = some "" ∧
    (generateHealthAnalysisFlow oracleCloudEmptyTip inputGemini).1.consumerRightsTip =
      some fssaiDefaultTip ∧
    (some fssaiDefaultTip = (some "" : Option String) → False) := by
  refine ⟨rfl, ?_, by decide⟩
  decide

/-- C10 corrected: on a hosted FIRST-attempt success that passes the
completeness check, the returned tip is the FSSAI default exactly when the
output tip is absent-or-empty (JS falsy) and the India test holds (detected
region case-insensitively equal to india, or no truthy detected region and
the request hint case-insensitively equal to india); otherwise the output
tip is returned unchanged. -/
theorem C10_amended_tip_default (env : FlowEnv) (input : HealthAnalysisInput)
    (m : String) (o : HealthAnalysisOutput)
    (hm : cloudModelOf input.aiServiceProvider = some m)
    (h0 : env.cloudBackend 0 (cloudPromptDataOf input) m = CloudResp.success (some o))
    (hc : completenessFails o = false) :
    (generateHealthAnalysisFlow env input).1.consumerRightsTip =
      (if tipMissingB o.consumerRightsTip && regionIndiaB input o then
        some fssaiDefaultTip else o.consumerRightsTip) := by
  have hfb : flowBody env input =
      (Except.ok (finalizeFirstOutput input (cloudServiceNameOf input m) o),
       [BackendCall.cloudCall 0 (cloudPromptDataOf input) m]) := by
    rw [flowBody_cloud env hm]
    simp only [runCloud, h0]
    rw [if_neg (by simp [hc])]
  rw [flow_of_ok hfb]
  exact finalizeFirstOutput_tip input (cloudServiceNameOf input m) o

theorem C10_witness :
    (generateHealthAnalysisFlow oracleCloudEmptyTip inputGemini).1.consumerRightsTip =
      (if tipMissingB emptyTipOutput.consumerRightsTip &&
          regionIndiaB inputGemini emptyTipOutput then
        some fssaiDefaultTip else emptyTipOutput.consumerRightsTip) :=
  C10_amended_tip_default oracleCloudEmptyTip inputGemini "googleai/gemini-2.0-flash"
    emptyTipOutput rfl rfl (by decide)

/-! ## C6 -/

/-- C6 counterexample: the claim says any response body matching none of the
three recognized shapes raises an error embedding the full raw payload.  But
the source tests `typeof ollamaResult.response === 'object'`, and in JS
`typeof null === 'object'`: a body `\x7b"response": null\x7d` — which matches
none of the claim's three shapes — is passed through as the extracted value
instead of raising the payload-bearing shape error. -/
theorem C6_counterexample :
    extractOllamaOutput (fun _ => none) (Json.obj [("response", Json.null)]) =
      Except.ok Json.null ∧
    (∀ msg, extractOllamaOutput (fun _ => none) (Json.obj [("response", Json.null)]) =
      Except.error msg → False) := by
  refine ⟨rfl, fun msg h => ?_⟩
  rw [show extractOllamaOutput (fun _ => none) (Json.obj [("response", Json.null)]) =
    Except.ok Json.null from rfl] at h
  exact Except.noConfusion h

/-- C6 corrected: extraction from the local response body.  A string in
`response` is JSON-parsed a second time and that result is used (a failed
parse errors with the string content); a genuine object in `response` is used
directly; with no usable `response` field, a truthy `message` with a
NON-EMPTY string at `message.content` has that string JSON-parsed and used;
the three shapes extract the same object for the same payload; a body with
neither field errors with the shape message, which embeds the full stringified
payload.  (Divergence from the claim: `null`/array values of `response` are
JS-`typeof` objects, so they are passed through rather than raising the
payload-bearing error, and an empty `message.content` string is falsy, so it
raises the shape error rather than being parsed.) -/
theorem C6_amended_extraction (jsonParse : String → Option Json) :
    (∀ fs s j, lookupField fs "response" = some (Json.str s) → jsonParse s = some j →
      extractOllamaOutput jsonParse (Json.obj fs) = Except.ok j) ∧
    (∀ fs s, lookupField fs "response" = some (Json.str s) → jsonParse s = none →
      extractOllamaOutput jsonParse (Json.obj fs) = Except.error
        ("Ollama returned a string in 'response' that is not valid JSON. Content: " ++ s)) ∧
    (∀ fs gs, lookupField fs "response" = some (Json.obj gs) →
      extractOllamaOutput jsonParse (Json.obj fs) = Except.ok (Json.obj gs)) ∧
    (∀ fs m c j, lookupField fs "response" = none →
      lookupField fs "message" = some m → jsTruthy m = true →
      getFieldJ m "content" = some (Json.str c) → ¬ c = "" →
      jsonParse c = some j →
      extractOllamaOutput jsonParse (Json.obj fs) = Except.ok j) ∧
    (∀ gs s c, jsonParse s = some (Json.obj gs) → jsonParse c = some (Json.obj gs) →
      ¬ c = "" →
      extractOllamaOutput jsonParse (Json.obj [("response", Json.str s)]) =
        extractOllamaOutput jsonParse (Json.obj [("response", Json.obj gs)]) ∧
      extractOllamaOutput jsonParse
          (Json.obj [("message", Json.obj [("content", Json.str c)])]) =
        extractOllamaOutput jsonParse (Json.obj [("response", Json.obj gs)])) ∧
    (∀ fs, lookupField fs "response" = none → lookupField fs "message" = none →
      extractOllamaOutput jsonParse (Json.obj fs) =
        Except.error (shapeErrorMsg (Json.obj fs))) ∧
    (∀ body, (shapeErrorMsg body).data =
      ("Ollama response field is not a JSON string or expected object. Full response: " :
        String).data ++ (stringifyJson body).data) := by
  refine ⟨?_, ?_, ?_, ?_, ?_, ?_, ?_⟩
  · intro fs s j hf hp
    simp only [extractOllamaOutput, getFieldJ, hf, hp]
  · intro fs s hf hp
    simp only [extractOllamaOutput, getFieldJ, hf, hp]
  · intro fs gs hf
    simp only [extractOllamaOutput, getFieldJ, hf]
  · intro fs m c j hf hmsg htr hcont hcne hp
    simp only [getFieldJ] at hcont
    simp only [extractOllamaOutput, getFieldJ, hf, hmsg, htr, hcont]
    simp [hcne, hp]
  · intro gs s c hs hc hcne
    constructor
    · simp [extractOllamaOutput, getFieldJ, lookupField, hs]
    · simp [extractOllamaOutput, getFieldJ, lookupField, jsTruthy, hc, hcne]
  · intro fs h1 h2
    simp only [extractOllamaOutput, getFieldJ, h1, h2]
  · intro body
    simp only [shapeErrorMsg, String.data_append]

theorem C6_witness :
    extractOllamaOutput (fun s => if s = "\x7b\x7d" then some (Json.obj []) else none)
      (Json.obj [("response", Json.str "\x7b\x7d")]) = Except.ok (Json.obj []) :=
  (C6_amended_extraction (fun s => if s = "\x7b\x7d" then some (Json.obj []) else none)).1
    [("response", Json.str "\x7b\x7d")] "\x7b\x7d" (Json.obj []) rfl
    (by simp)

/-! ## C8 -/

def inputOllamaEmptyHint : HealthAnalysisInput :=
  ⟨"Maggi Noodles", some "", "ollama", none⟩

/-- C8 counterexample: the claim keeps the region-hint conditional block
whenever `userRegionHint` is present.  But the source tests JS truthiness
(`if (data.userRegionHint)`), so a present-but-EMPTY hint strips the block:
the prompt built for a request with hint `some ""` equals the hint-absent
rendering, not the block-kept rendering (which would carry the
"User's Region Hint: " label). -/
theorem C8_counterexample :
    inputOllamaEmptyHint.userRegionHint = some "" ∧
    (ollamaRequestOf inputOllamaEmptyHint).prompt =
      promptPre ++ "Maggi Noodles" ++ promptMid ++ promptSuf ++ ollamaJsonDirective ∧
    ((ollamaRequestOf inputOllamaEmptyHint).prompt =
      promptPre ++ "Maggi Noodles" ++ promptMid ++ (userRegionLabel ++ "") ++ promptSuf ++
        ollamaJsonDirective → False) := by
  have hpi : noBrace ("Maggi Noodles" : String) = true := by decide
  have hpr : (ollamaRequestOf inputOllamaEmptyHint).prompt =
      fillPromptTemplate basePromptTemplate "Maggi Noodles" (some "") ++
        ollamaJsonDirective := rfl
  refine ⟨rfl, ?_, ?_⟩
  · rw [hpr, fillPromptTemplate_emptyHint "Maggi Noodles" hpi]
  · intro h
    rw [hpr, fillPromptTemplate_emptyHint "Maggi Noodles" hpi] at h
    have hlen := congrArg String.length h
    simp only [String.length_append] at hlen
    have hlab : userRegionLabel.length = 20 := by decide
    have hemp : ("" : String).length = 0 := by decide
    omega

/-- C8 corrected: the prompt sent to the local backend is the canonical
template with every productInfo placeholder replaced verbatim, the
region-hint block kept with the hint substituted exactly when the hint is
present AND non-empty (JS truthiness), removed entirely when the hint is
absent OR empty, and the JSON-only directive appended at the end; the
rendering is a pure function of the productInfo and userRegionHint fields.
The placeholder-freeness hypotheses (`noBrace`) rule out user data injecting
template syntax. -/
theorem C8_amended_prompt (env : FlowEnv) (input : HealthAnalysisInput)
    (hpi : noBrace input.productInfo = true) :
    (input.aiServiceProvider = "ollama" →
      (generateHealthAnalysisFlow env input).2 =
        [BackendCall.ollamaCall (ollamaRequestOf input)]) ∧
    (∀ h, input.userRegionHint = some h → ¬ h = "" → noBrace h = true →
      (ollamaRequestOf input).prompt =
        promptPre ++ input.productInfo ++ promptMid ++ (userRegionLabel ++ h) ++
          promptSuf ++ ollamaJsonDirective) ∧
    (input.userRegionHint = none ∨ input.userRegionHint = some "" →
      (ollamaRequestOf input).prompt =
        promptPre ++ input.productInfo ++ promptMid ++ promptSuf ++ ollamaJsonDirective) ∧
    (∀ input' : HealthAnalysisInput, input'.productInfo = input.productInfo →
      input'.userRegionHint = input.userRegionHint →
      (ollamaRequestOf input').prompt = (ollamaRequestOf input).prompt) := by
  refine ⟨?_, ?_, ?_, ?_⟩
  · intro hp
    rw [flow_snd]
    unfold flowBody
    rw [if_pos hp]
    exact runOllama_calls env input
  · intro h hh hne hnb
    have hpr : (ollamaRequestOf input).prompt =
        fillPromptTemplate basePromptTemplate input.productInfo input.userRegionHint ++
          ollamaJsonDirective := rfl
    rw [hpr, hh, fillPromptTemplate_some input.productInfo h hpi hnb hne]
  · intro hcase
    have hpr : (ollamaRequestOf input).prompt =
        fillPromptTemplate basePromptTemplate input.productInfo input.userRegionHint ++
          ollamaJsonDirective := rfl
    rcases hcase with hh | hh
    · rw [hpr, hh, fillPromptTemplate_none input.productInfo hpi]
    · rw [hpr, hh, fillPromptTemplate_emptyHint input.productInfo hpi]
  · intro input' h1 h2
    have hpr : ∀ i : HealthAnalysisInput, (ollamaRequestOf i).prompt =
        fillPromptTemplate basePromptTemplate i.productInfo i.userRegionHint ++
          ollamaJsonDirective := fun i => rfl
    rw [hpr, hpr, h1, h2]

def inputOllamaHint : HealthAnalysisInput :=
  ⟨"Maggi Noodles", some "Punjab", "ollama", none⟩

theorem C8_witness :
    (ollamaRequestOf inputOllamaHint).prompt =
      promptPre ++ inputOllamaHint.productInfo ++ promptMid ++
        (userRegionLabel ++ "Punjab") ++ promptSuf ++ ollamaJsonDirective :=
  (C8_amended_prompt oracleThrows inputOllamaHint (by decide)).2.1 "Punjab" rfl
    (by decide) (by decide)

end Studio
